import Mathlib

/-!
JavaScriptCoreCPP: RAII wrappers and property callback descriptors.

A shallow embedding of

* `include/JavaScriptCoreCPP/RAII/detail/JSNativeObjectFunctionPropertyCallback.hpp`
  (the function property callback descriptor: constructor, comparison operators, hash),
* `include/JavaScriptCoreCPP/RAII/JSPropertyAttribute.hpp`,
* `include/JavaScriptCoreCPP/JSContextGroup.hpp` and
  `include/JavaScriptCoreCPP/JSContext.hpp` (special member functions of the two wrappers),
* `src/RAII/JSContextGroup.cpp` (`CreateContext`) and `src/RAII/JSContext.cpp`
  (`JSEvaluateScript`, `JSCheckScriptSyntax`),
* the registry of class names declared in `include/JavaScriptCoreCPP/JSClass.hpp`,

followed by theorems about them.

C++ exceptions are modelled by `Except Exception`; writes to `std::clog` are not modelled.
The JavaScriptCore C API is modelled by a table of reference counts per handle, and its
script functions are parameters.
-/

namespace JavaScriptCoreCPP

/-! ## Exceptions -/

/-- The standard-library exception classes thrown by the embedded code, with their message. -/
inductive Exception where
  | invalid_argument (message : String)
  | runtime_error (message : String)
  | out_of_range (message : String)
  deriving DecidableEq, Repr

/-! ## JSPropertyAttribute.hpp -/

/-- The scoped enumeration `JSPropertyAttribute` (JSPropertyAttribute.hpp:30-35). -/
inductive JSPropertyAttribute where
  | None
  | ReadOnly
  | DontEnum
  | DontDelete
  deriving DecidableEq, Repr

/-- The value of an enumerator in the underlying type: the enumerators carry no initialiser,
so they are numbered 0, 1, 2, 3 in declaration order. This is the `static_cast` to
`property_attribute_underlying_type`. -/
def JSPropertyAttribute.underlying : JSPropertyAttribute → Nat
  | .None => 0
  | .ReadOnly => 1
  | .DontEnum => 2
  | .DontDelete => 3

/-! ## JSNativeObjectFunctionPropertyCallback.hpp -/

/-- What the descriptor header uses from headers that are not part of this development.
`JSString` itself is the type parameter; its `operator==` is taken to be equality of the
values of that type.

* `to_std_string`: the conversion `JSString::operator std::string`, used to initialise
  `function_name_for_js_static_function_` from the `JSString` name;
* `ToJSPropertyAttribute`: the conversion of an attribute set to the engine's attribute bits;
* `hash_val`: the hash combiner of `detail/HashUtilities.hpp`, applied to the name and the
  attribute bits;
* `attributes_less`: the `operator<` that `operator<` of the descriptor applies to two
  `std::unordered_set<JSPropertyAttribute>`. -/
structure Externals (JSString : Type) where
  to_std_string : JSString → String
  ToJSPropertyAttribute : Finset JSPropertyAttribute → Nat
  hash_val : JSString → Nat → Nat
  attributes_less : Finset JSPropertyAttribute → Finset JSPropertyAttribute → Bool

/-- The data members of `JSNativeObjectFunctionPropertyCallback<T>`
(JSNativeObjectFunctionPropertyCallback.hpp:153-163). `Callback` is the type of non-null
`CallAsFunctionCallback<T>` values; `none` is `nullptr`. -/
structure JSNativeObjectFunctionPropertyCallback (JSString Callback : Type) where
  function_name_ : JSString
  function_name_for_js_static_function_ : String
  call_as_function_callback_ : Option Callback
  attributes_ : Finset JSPropertyAttribute
  js_property_attributes_ : Nat
  hash_value_ : Nat

namespace JSNativeObjectFunctionPropertyCallback

variable {JSString Callback : Type}

/-- The loop at the end of the constructor (lines 193-198) sets bit `bit_position` of a local
`std::bitset<4>` for every attribute. The bitset is discarded; what the loop can do to the
caller is throw `std::out_of_range`, which `bitset::set` does for a position of 4 or more.
The result is `true` when some attribute has such a position. -/
def bitset_set_throws (attributes : Finset JSPropertyAttribute) : Bool :=
  decide (∃ property_attribute ∈ attributes, 4 ≤ property_attribute.underlying)

/-- The constructor from a name, a callback and an attribute set (lines 166-199).
The member initialisers run first, then the two argument checks, then the bitset loop. -/
def construct (ext : Externals JSString) (function_name : JSString)
    (call_as_function_callback : Option Callback)
    (attributes : Finset JSPropertyAttribute) :
    Except Exception (JSNativeObjectFunctionPropertyCallback JSString Callback) :=
  let function_name_ := function_name
  let function_name_for_js_static_function_ := ext.to_std_string function_name
  let call_as_function_callback_ := call_as_function_callback
  let attributes_ := attributes
  let js_property_attributes_ := ext.ToJSPropertyAttribute attributes_
  let hash_value_ := ext.hash_val function_name_ js_property_attributes_
  if function_name_for_js_static_function_.isEmpty then
    .error (.invalid_argument
      "The function_name is empty. A valid JavaScript property name must be provided.")
  else if call_as_function_callback.isNone then
    .error (.invalid_argument "The call_as_function_callback must be provided.")
  else if bitset_set_throws attributes then
    .error (.out_of_range "bitset::set")
  else
    .ok { function_name_, function_name_for_js_static_function_, call_as_function_callback_,
          attributes_, js_property_attributes_, hash_value_ }

/-- The accessor `get_function_name` (lines 79-81). -/
def get_function_name (d : JSNativeObjectFunctionPropertyCallback JSString Callback) : JSString :=
  d.function_name_

/-- The accessor `get_call_as_function_callback` (lines 83-85). -/
def get_call_as_function_callback (d : JSNativeObjectFunctionPropertyCallback JSString Callback) :
    Option Callback :=
  d.call_as_function_callback_

/-- The accessor `get_attributes` (lines 87-89). -/
def get_attributes (d : JSNativeObjectFunctionPropertyCallback JSString Callback) :
    Finset JSPropertyAttribute :=
  d.attributes_

/-- The accessor `get_hash_value` (lines 91-93): the stored hash. -/
def get_hash_value (d : JSNativeObjectFunctionPropertyCallback JSString Callback) : Nat :=
  d.hash_value_

/-- The specialisation `hash<JSNativeObjectFunctionPropertyCallback<T>>::operator()`
(lines 250-258). -/
def hash (callback : JSNativeObjectFunctionPropertyCallback JSString Callback) : Nat :=
  callback.get_hash_value

/-- The free function `operator==` (lines 201-217). A callback converts to `true` in a
condition exactly when it is not null. -/
def operator_eq [DecidableEq JSString]
    (lhs rhs : JSNativeObjectFunctionPropertyCallback JSString Callback) : Bool :=
  if lhs.function_name_ ≠ rhs.function_name_ then
    false
  else if lhs.call_as_function_callback_.isSome && !rhs.call_as_function_callback_.isSome then
    false
  else if !lhs.call_as_function_callback_.isSome && rhs.call_as_function_callback_.isSome then
    false
  else
    decide (lhs.attributes_ = rhs.attributes_)

/-- The free function `operator!=` (lines 219-223). -/
def operator_ne [DecidableEq JSString]
    (lhs rhs : JSNativeObjectFunctionPropertyCallback JSString Callback) : Bool :=
  !(operator_eq lhs rhs)

/-- The free function `operator<` (lines 225-233). The names compared are the `std::string`
members, by the lexicographic `operator<` of `std::string`. -/
def operator_lt (ext : Externals JSString)
    (lhs rhs : JSNativeObjectFunctionPropertyCallback JSString Callback) : Bool :=
  if lhs.function_name_for_js_static_function_ < rhs.function_name_for_js_static_function_ then
    true
  else
    ext.attributes_less lhs.attributes_ rhs.attributes_

/-- The free function `operator>` (lines 235-238). -/
def operator_gt (ext : Externals JSString)
    (lhs rhs : JSNativeObjectFunctionPropertyCallback JSString Callback) : Bool :=
  operator_lt ext rhs lhs

/-- The free function `operator<=` (lines 240-243). -/
def operator_le (ext : Externals JSString)
    (lhs rhs : JSNativeObjectFunctionPropertyCallback JSString Callback) : Bool :=
  !(operator_gt ext lhs rhs)

/-- The free function `operator>=` (lines 245-248). -/
def operator_ge (ext : Externals JSString)
    (lhs rhs : JSNativeObjectFunctionPropertyCallback JSString Callback) : Bool :=
  !(operator_lt ext lhs rhs)

end JSNativeObjectFunctionPropertyCallback

/-- A concrete choice of the external declarations, used to evaluate the code on examples:
a `JSString` is its text, the attribute bits are the sum of `2 ^ underlying`, the hash adds
the length of the name to the bits, and attribute sets are ordered by their bits. -/
def example_externals : Externals String where
  to_std_string := fun s => s
  ToJSPropertyAttribute := fun attributes => attributes.sum (fun a => 2 ^ a.underlying)
  hash_val := fun name bits => 31 * name.length + bits
  attributes_less := fun x y =>
    decide (x.sum (fun a => 2 ^ a.underlying) < y.sum (fun a => 2 ^ a.underlying))

/-! ## The wrapped engine: reference counts of handles -/

/-! The handle types `JSContextGroupRef`, `JSContextRef` and `JSGlobalContextRef` are pointers
into the engine. A handle is modelled by a natural number, its address; `0` is `nullptr`. -/

/-- Modelled from the spec: the state of the wrapped JavaScript engine, which is not part of
this repository. The spec calls an engine handle "an opaque, engine-owned, reference-counted
resource" that the library never constructs but only retains and releases. The state records,
for every handle, how many references to it are currently held (retains, the creating call
included, minus releases), the next group handle the engine will hand out, and the engine's
map from a context to its global context (`JSContextGetGlobalContext`). The last field is the
next global context handle the engine will hand out. -/
structure Engine where
  group_refs : Nat → Nat
  context_refs : Nat → Nat
  next_group : Nat
  JSContextGetGlobalContext : Nat → Nat
  next_context : Nat := 1

/-- Modelled from the spec: the engine's `JSContextGroupCreate`, not part of this repository:
"default-construct creates a fresh group handle (1 reference)". The handle returned is the
engine's next unused one. -/
def JSContextGroupCreate (e : Engine) : Nat × Engine :=
  (e.next_group,
   { e with group_refs := Function.update e.group_refs e.next_group 1
            next_group := e.next_group + 1 })

/-- Modelled from the spec: the engine's `JSContextGroupRetain`, not part of this repository:
a retain "increments the engine's reference count" of the handle. -/
def JSContextGroupRetain (e : Engine) (group : Nat) : Engine :=
  { e with group_refs := Function.update e.group_refs group (e.group_refs group + 1) }

/-- Modelled from the spec: the engine's `JSContextGroupRelease`, not part of this repository:
a release decrements the reference count of the handle. Releasing a handle no reference to
which is held (a release without a matching retain) is an error of the caller: `none`. -/
def JSContextGroupRelease (e : Engine) (group : Nat) : Option Engine :=
  if e.group_refs group = 0 then none
  else some { e with group_refs := Function.update e.group_refs group (e.group_refs group - 1) }

/-- Modelled from the spec: the engine's `JSGlobalContextRetain`, not part of this repository:
it increments the reference count of the global context handle. -/
def JSGlobalContextRetain (e : Engine) (ctx : Nat) : Engine :=
  { e with context_refs := Function.update e.context_refs ctx (e.context_refs ctx + 1) }

/-- Modelled from the spec: the engine's `JSGlobalContextRelease`, not part of this repository:
it decrements the reference count of the global context handle; `none` when no reference to
the handle is held. -/
def JSGlobalContextRelease (e : Engine) (ctx : Nat) : Option Engine :=
  if e.context_refs ctx = 0 then none
  else some { e with context_refs := Function.update e.context_refs ctx (e.context_refs ctx - 1) }

/-- Modelled from the spec: the engine's `JSGlobalContextCreateInGroup`, not part of this
repository: a "new Context" in the group `group` whose global object is made from the class
handle `global_object_class` (`nullptr` for the default global object). The handle returned is
the engine's next unused one, one reference to it is held, and it is its own global
context. -/
def JSGlobalContextCreateInGroup (e : Engine) (_group : Nat) (_global_object_class : Nat) :
    Nat × Engine :=
  (e.next_context,
   { e with context_refs := Function.update e.context_refs e.next_context 1
            JSContextGetGlobalContext :=
              Function.update e.JSContextGetGlobalContext e.next_context e.next_context
            next_context := e.next_context + 1 })

/-! ## JSContextGroup.hpp

The lock guard macros expand to nothing unless `JAVASCRIPTCORECPP_THREAD_SAFE` is defined, and
the defaulted assignment operators are only declared under
`JAVASCRIPTCORECPP_MOVE_SEMANTICS_ENABLE`; neither is modelled. -/

/-- The data member of `JSContextGroup` (JSContextGroup.hpp:205). -/
structure JSContextGroup where
  js_context_group_ref__ : Nat
  deriving DecidableEq, Repr

namespace JSContextGroup

/-- The default constructor (lines 91-93). -/
def default_construct (e : Engine) : JSContextGroup × Engine :=
  let (group, e1) := JSContextGroupCreate e
  ({ js_context_group_ref__ := group }, e1)

/-- The destructor (lines 139-141). -/
def destruct (e : Engine) (self : JSContextGroup) : Option Engine :=
  JSContextGroupRelease e self.js_context_group_ref__

/-- The copy constructor (lines 143-147). The source is a `const` reference. -/
def copy_construct (e : Engine) (rhs : JSContextGroup) : JSContextGroup × Engine :=
  let self : JSContextGroup := { js_context_group_ref__ := rhs.js_context_group_ref__ }
  (self, JSContextGroupRetain e self.js_context_group_ref__)

/-- The move constructor (lines 149-153). The result is the new wrapper, the source as the
constructor leaves it, and the engine. -/
def move_construct (e : Engine) (rhs : JSContextGroup) :
    JSContextGroup × JSContextGroup × Engine :=
  let self : JSContextGroup := { js_context_group_ref__ := rhs.js_context_group_ref__ }
  (self, rhs, JSContextGroupRetain e self.js_context_group_ref__)

/-- The friend function `swap` (lines 171-179): the two wrappers after the call. -/
def swap (first second : JSContextGroup) : JSContextGroup × JSContextGroup :=
  ({ js_context_group_ref__ := second.js_context_group_ref__ },
   { js_context_group_ref__ := first.js_context_group_ref__ })

/-- The body of the unified assignment operator (lines 165-169), which takes its argument by
value: `*this` and the parameter object after the call. -/
def operator_assign (self rhs : JSContextGroup) : JSContextGroup × JSContextGroup :=
  swap self rhs

/-- The expression `a = b` for an lvalue `b`: the parameter of `operator=` is copy-constructed
from `b`, the body runs, and the parameter is destroyed at the end of the expression. The
result is `a` after the assignment and the engine. -/
def assign (e : Engine) (a b : JSContextGroup) : Option (JSContextGroup × Engine) :=
  let (rhs, e1) := copy_construct e b
  let (a1, rhs1) := operator_assign a rhs
  (destruct e1 rhs1).map (fun e2 => (a1, e2))

/-- The expression `a = std::move(b)`: as `assign`, with the parameter move-constructed
from `b`. The result is `a` and `b` after the assignment and the engine. -/
def move_assign (e : Engine) (a b : JSContextGroup) :
    Option (JSContextGroup × JSContextGroup × Engine) :=
  let (rhs, b1, e1) := move_construct e b
  let (a1, rhs1) := operator_assign a rhs
  (destruct e1 rhs1).map (fun e2 => (a1, b1, e2))

/-- The conversion `operator JSContextGroupRef` (lines 191-193). -/
def operator_JSContextGroupRef (self : JSContextGroup) : Nat :=
  self.js_context_group_ref__

/-- The free function `operator==` (lines 209-213). -/
def operator_eq (lhs rhs : JSContextGroup) : Bool :=
  lhs.js_context_group_ref__ == rhs.js_context_group_ref__

/-- The free function `operator!=` (lines 215-219). -/
def operator_ne (lhs rhs : JSContextGroup) : Bool :=
  !(operator_eq lhs rhs)

end JSContextGroup

/-! ## JSContext.hpp -/

/-- The data members of `JSContext` (JSContext.hpp:581-582). -/
structure JSContext where
  js_context_group__ : JSContextGroup
  js_context_ref__ : Nat
  deriving DecidableEq, Repr

namespace JSContext

/-- The conversion `operator JSContextRef` (lines 507-509). -/
def operator_JSContextRef (self : JSContext) : Nat :=
  self.js_context_ref__

/-- The conversion `operator JSGlobalContextRef` (lines 512-514). -/
def operator_JSGlobalContextRef (e : Engine) (self : JSContext) : Nat :=
  e.JSContextGetGlobalContext self.js_context_ref__

/-- The accessor `get_context_group` (lines 105-107). It returns the member by value, so
the caller receives a copy-constructed `JSContextGroup`. -/
def get_context_group (e : Engine) (self : JSContext) : JSContextGroup × Engine :=
  JSContextGroup.copy_construct e self.js_context_group__

/-- The destructor (lines 455-457): the body, then the destructor of the member
`js_context_group__`. -/
def destruct (e : Engine) (self : JSContext) : Option Engine :=
  (JSGlobalContextRelease e (operator_JSGlobalContextRef e self)).bind
    (fun e1 => JSContextGroup.destruct e1 self.js_context_group__)

/-- The copy constructor (lines 459-464): the member `js_context_group__` is copy-constructed,
the context handle copied, and the global context retained. -/
def copy_construct (e : Engine) (rhs : JSContext) : JSContext × Engine :=
  let (group, e1) := JSContextGroup.copy_construct e rhs.js_context_group__
  let self : JSContext := { js_context_group__ := group, js_context_ref__ := rhs.js_context_ref__ }
  (self, JSGlobalContextRetain e1 (operator_JSGlobalContextRef e1 self))

/-- The move constructor (lines 466-471). `rhs.js_context_group__` is an lvalue, so the member
is copy-constructed. The result is the new wrapper, the source as the constructor leaves it,
and the engine. -/
def move_construct (e : Engine) (rhs : JSContext) : JSContext × JSContext × Engine :=
  let (group, e1) := JSContextGroup.copy_construct e rhs.js_context_group__
  let self : JSContext := { js_context_group__ := group, js_context_ref__ := rhs.js_context_ref__ }
  (self, rhs, JSGlobalContextRetain e1 (operator_JSGlobalContextRef e1 self))

/-- The friend function `swap` (lines 488-497): the two wrappers after the call. The member
`js_context_group__` is exchanged by the `swap` of `JSContextGroup`. -/
def swap (first second : JSContext) : JSContext × JSContext :=
  let (g1, g2) := JSContextGroup.swap first.js_context_group__ second.js_context_group__
  ({ js_context_group__ := g1, js_context_ref__ := second.js_context_ref__ },
   { js_context_group__ := g2, js_context_ref__ := first.js_context_ref__ })

/-- The free function `operator==` (lines 586-590). -/
def operator_eq (lhs rhs : JSContext) : Bool :=
  lhs.js_context_ref__ == rhs.js_context_ref__

/-- The free function `operator!=` (lines 592-596). -/
def operator_ne (lhs rhs : JSContext) : Bool :=
  !(operator_eq lhs rhs)

end JSContext

/-! ## Lifetimes of `JSContextGroup` objects

A program that uses `JSContextGroup` is a sequence of constructions, assignments, swaps and
destructions of objects. The live objects are kept in a list, an object being identified by
its position. -/

/-- The engine together with the `JSContextGroup` objects that are alive. -/
structure World where
  engine : Engine
  wrappers : List JSContextGroup

/-- One operation of the public interface of `JSContextGroup` on the live objects. An index
names the object at that position. -/
inductive Op where
  | default_construct
  | copy_construct (i : Nat)
  | move_construct (i : Nat)
  | assign (i j : Nat)
  | move_assign (i j : Nat)
  | swap (i j : Nat)
  | destruct (i : Nat)
  deriving DecidableEq, Repr

namespace World

/-- The start of the program: the engine has handed out no handle and no object is alive. -/
def init : World :=
  { engine := { group_refs := fun _ => 0, context_refs := fun _ => 0, next_group := 1,
                JSContextGetGlobalContext := fun ctx => ctx },
    wrappers := [] }

/-- The number of live objects that hold the handle `group`. -/
def holders (w : World) (group : Nat) : Nat :=
  w.wrappers.countP (fun g => g.js_context_group_ref__ == group)

/-- Whether the objects an operation names are alive. -/
def valid (w : World) : Op → Bool
  | .default_construct => true
  | .copy_construct i => i < w.wrappers.length
  | .move_construct i => i < w.wrappers.length
  | .assign i j => i < w.wrappers.length && j < w.wrappers.length
  | .move_assign i j => i < w.wrappers.length && j < w.wrappers.length
  | .swap i j => i < w.wrappers.length && j < w.wrappers.length
  | .destruct i => i < w.wrappers.length

/-- The effect of one operation. A new object is added at the end of the list; a destroyed
object is removed from it. The result is `none` when the operation names an object that is not
alive, or when the engine is asked to release a handle no reference to which is held. -/
def step (w : World) : Op → Option World
  | .default_construct =>
      let (g, e) := JSContextGroup.default_construct w.engine
      some { engine := e, wrappers := w.wrappers ++ [g] }
  | .copy_construct i =>
      (w.wrappers[i]?).map (fun rhs =>
        let (g, e) := JSContextGroup.copy_construct w.engine rhs
        { engine := e, wrappers := w.wrappers ++ [g] })
  | .move_construct i =>
      (w.wrappers[i]?).map (fun rhs =>
        let (g, rhs1, e) := JSContextGroup.move_construct w.engine rhs
        { engine := e, wrappers := (w.wrappers.set i rhs1) ++ [g] })
  | .assign i j =>
      (w.wrappers[i]?).bind (fun a => (w.wrappers[j]?).bind (fun b =>
        (JSContextGroup.assign w.engine a b).map (fun (a1, e) =>
          { engine := e, wrappers := w.wrappers.set i a1 })))
  | .move_assign i j =>
      (w.wrappers[i]?).bind (fun a => (w.wrappers[j]?).bind (fun b =>
        (JSContextGroup.move_assign w.engine a b).map (fun (a1, b1, e) =>
          { engine := e, wrappers := (w.wrappers.set j b1).set i a1 })))
  | .swap i j =>
      (w.wrappers[i]?).bind (fun first => (w.wrappers[j]?).map (fun second =>
        let (first1, second1) := JSContextGroup.swap first second
        { engine := w.engine, wrappers := (w.wrappers.set i first1).set j second1 }))
  | .destruct i =>
      (w.wrappers[i]?).bind (fun self =>
        (JSContextGroup.destruct w.engine self).map (fun e =>
          { engine := e, wrappers := w.wrappers.eraseIdx i }))

/-- The effect of a sequence of operations, from left to right. -/
def run (w : World) : List Op → Option World
  | [] => some w
  | op :: ops => (w.step op).bind (fun w1 => w1.run ops)

end World

/-- The descriptor that `construct example_externals "b" (some 0) ∅` returns. -/
def example_descriptor_b : JSNativeObjectFunctionPropertyCallback String Nat :=
  { function_name_ := "b", function_name_for_js_static_function_ := "b",
    call_as_function_callback_ := some 0, attributes_ := ∅,
    js_property_attributes_ := 0, hash_value_ := 31 }

/-- The descriptor that `construct example_externals "a" (some 0) {ReadOnly}` returns. -/
def example_descriptor_a : JSNativeObjectFunctionPropertyCallback String Nat :=
  { function_name_ := "a", function_name_for_js_static_function_ := "a",
    call_as_function_callback_ := some 0, attributes_ := {.ReadOnly},
    js_property_attributes_ := 2, hash_value_ := 33 }

/-- The descriptor that `construct example_externals "f" (some callback) {ReadOnly}`
returns. -/
def example_descriptor_f (callback : Nat) : JSNativeObjectFunctionPropertyCallback String Nat :=
  { function_name_ := "f", function_name_for_js_static_function_ := "f",
    call_as_function_callback_ := some callback, attributes_ := {.ReadOnly},
    js_property_attributes_ := 2, hash_value_ := 33 }

/-- The reference-count invariant of `JSContextGroup`: the engine's reference count of
every group handle is the number of live objects that hold the handle. -/
def World.counts_match (w : World) : Prop :=
  ∀ group, w.engine.group_refs group = w.holders group

/-- The engine has not handed out the handles from `next_group` on: no reference to any of
them is held. -/
def World.unused_fresh (w : World) : Prop :=
  ∀ group, w.engine.next_group ≤ group → w.engine.group_refs group = 0

/-- An engine in which one reference is held to the group handle `1` and one to the global
context handle `5`. -/
def example_engine : Engine :=
  { group_refs := fun group => if group = 1 then 1 else 0,
    context_refs := fun ctx => if ctx = 5 then 1 else 0,
    next_group := 2,
    JSContextGetGlobalContext := fun ctx => ctx,
    next_context := 6 }

/-- A `JSContextGroup` object that holds the group handle `1`. -/
def example_group : JSContextGroup :=
  { js_context_group_ref__ := 1 }

/-- A `JSContext` object that holds the context handle `5` in the group `1`. -/
def example_context : JSContext :=
  { js_context_group__ := example_group, js_context_ref__ := 5 }

/-- A world with `example_engine` and the single live object holding the group handle `1`. -/
def example_world : World :=
  { engine := example_engine, wrappers := [example_group] }

/-- The state at the end of the program `default_construct, copy_construct 0,
default_construct, assign 0 2, move_construct 1, move_assign 3 1, swap 0 1, destruct 0`
run from `World.init`. -/
def example_run : World :=
  (World.init.run [.default_construct, .copy_construct 0, .default_construct, .assign 0 2,
    .move_construct 1, .move_assign 3 0, .swap 0 1, .destruct 0]).getD World.init

/-- A world with two live objects that hold the group handles `1` and `2`, one reference
being held to each. -/
def example_pair : World :=
  { engine := { group_refs := fun group => if group = 1 ∨ group = 2 then 1 else 0,
                context_refs := fun _ => 0,
                next_group := 3,
                JSContextGetGlobalContext := fun ctx => ctx },
    wrappers := [{ js_context_group_ref__ := 1 }, { js_context_group_ref__ := 2 }] }

/-! ## JSClass.hpp and JSContextGroup.cpp: creating a context -/

/-- The handle member of `JSClass` (JSClass.hpp:131), `nullptr` by its default member
initialiser. A default-constructed `JSClass` is `{}`. The header declares the name and the
version twice with different types; they play no part in creating a context and are left
out. -/
structure JSClass where
  js_class_ref__ : Nat := 0
  deriving DecidableEq, Repr

/-- The conversion `operator JSClassRef` (JSClass.hpp:120-122). -/
def JSClass.operator_JSClassRef (self : JSClass) : Nat :=
  self.js_class_ref__

/-- Modelled from the spec: the constructor
`JSContext(const JSContextGroup&, const JSClass& = {})`, declared at JSContext.hpp:501 and
defined outside this development. A Context is "constructed only by a ContextGroup,
optionally against a custom global-object Class", and `CreateContext` "returns a new Context
sharing this group": the member `js_context_group__` is copy-constructed from the group, and
the context handle is a new global context that the engine creates in that group for the
class. -/
def JSContext.construct (e : Engine) (js_context_group : JSContextGroup)
    (global_object_class : JSClass) : JSContext × Engine :=
  let (group, e1) := JSContextGroup.copy_construct e js_context_group
  let (ctx, e2) := JSGlobalContextCreateInGroup e1 group.operator_JSContextGroupRef
    global_object_class.operator_JSClassRef
  ({ js_context_group__ := group, js_context_ref__ := ctx }, e2)

/-- The member function `JSContextGroup::CreateContext()` (JSContextGroup.cpp:16-18):
`JSContext(*this)`, in which the second argument of the constructor is its default
argument `{}`. -/
def JSContextGroup.CreateContext (e : Engine) (self : JSContextGroup) : JSContext × Engine :=
  JSContext.construct e self {}

/-- The member function `JSContextGroup::CreateContext(JSClass)` (JSContextGroup.cpp:20-22):
`JSContext(*this, global_object_class)`. -/
def JSContextGroup.CreateContext_JSClass (e : Engine) (self : JSContextGroup)
    (global_object_class : JSClass) : JSContext × Engine :=
  JSContext.construct e self global_object_class

/-! ## JSContext.cpp: evaluating and checking scripts

The member functions of `JSContext.cpp` name the handle of the context
`js_global_context_ref_`; it is an argument of the functions below. -/

/-- What `JSContext.cpp` uses from the engine and from headers outside this development.
`JSString` is the string type; a `JSStringRef` argument of the engine is `none` for `nullptr`
and otherwise the string it refers to. `σ` is the state of the engine, which a script may
change. A value handle is a natural number, `0` being `nullptr`.

* `length`: the member function `JSString::length`;
* `JSEvaluateScript`: the engine's function of that name, applied to the state, the context,
  the script, the `this` object, the source URL and the starting line number; it returns the
  result handle, the handle it stored in `*exception` (`nullptr` when it stored none), and
  the new state;
* `JSCheckScriptSyntax`: the engine's function of that name, applied to the state, the
  context, the script, the source URL and the starting line number; it returns its boolean
  result, the handle it stored in `*exception`, and the new state;
* `to_std_string`: the conversion `static_cast<std::string>` of the `JSValue` that wraps a
  handle in a context. -/
structure ScriptEngine (JSString σ : Type) where
  length : JSString → Nat
  JSEvaluateScript : σ → Nat → JSString → Nat → Option JSString → Int → Nat × Nat × σ
  JSCheckScriptSyntax : σ → Nat → JSString → Option JSString → Int → Bool × Nat × σ
  to_std_string : σ → Nat → Nat → String

/-- Modelled from the spec: the class `JSValue`, declared outside this development, one of
the "typed wrappers around a single polymorphic engine value handle": the context in which
the value was wrapped and the value handle. -/
structure JSValue where
  js_context_ref_ : Nat
  js_value_ref_ : Nat
  deriving DecidableEq, Repr

/-- A call that a member function of `JSContext.cpp` makes, with its arguments: to the two
engine functions, to the constructor `JSValue(context, handle)`, and to the engine's
`JSValueUnprotect`. -/
inductive Call (JSString : Type) where
  | JSEvaluateScript (ctx : Nat) (script : JSString) (this_object : Nat)
      (source_url_ref : Option JSString) (starting_line_number : Int)
  | JSCheckScriptSyntax (ctx : Nat) (script : JSString)
      (source_url_ref : Option JSString) (starting_line_number : Int)
  | JSValue_construct (ctx : Nat) (js_value_ref : Nat)
  | JSValueUnprotect (ctx : Nat) (js_value_ref : Nat)
  deriving DecidableEq, Repr

/-- What a member function of `JSContext.cpp` does: the value it returns or the exception it
throws, the state of the engine afterwards, and the calls it made, in order. -/
structure Outcome (JSString σ α : Type) where
  result : Except Exception α
  engine : σ
  calls : List (Call JSString)

/-- The message that an exception carries (`what()`). -/
def Exception.message : Exception → String
  | .invalid_argument message => message
  | .runtime_error message => message
  | .out_of_range message => message

namespace JSContext

variable {JSString σ : Type}

/-- The local `source_url_ref` of the three member functions (JSContext.cpp:20, 40, 58):
`(source_url.length() > 0) ? static_cast<JSStringRef>(source_url) : nullptr`. -/
def source_url_ref (api : ScriptEngine JSString σ) (source_url : JSString) : Option JSString :=
  if api.length source_url > 0 then some source_url else none

/-- The steps that the two overloads of `JSEvaluateScript` share after the call to the
engine (JSContext.cpp:24-34 and 44-54): on an exception the exception handle is wrapped in a
`JSValue`, converted to a string, and `std::invalid_argument` is thrown with that message;
otherwise the result handle is wrapped in a `JSValue`, unprotected, and returned. -/
def evaluate_outcome (api : ScriptEngine JSString σ) (js_global_context_ref_ : Nat)
    (call : Call JSString) (returned : Nat × Nat × σ) : Outcome JSString σ JSValue :=
  let js_value_ref := returned.1
  let exception := returned.2.1
  let s1 := returned.2.2
  if exception ≠ 0 then
    let message := api.to_std_string s1 js_global_context_ref_ exception
    { result := .error (.invalid_argument message)
      engine := s1
      calls := [call, .JSValue_construct js_global_context_ref_ exception] }
  else
    let result : JSValue :=
      { js_context_ref_ := js_global_context_ref_, js_value_ref_ := js_value_ref }
    { result := .ok result
      engine := s1
      calls := [call, .JSValue_construct js_global_context_ref_ js_value_ref,
                .JSValueUnprotect js_global_context_ref_ js_value_ref] }

/-- The member function `JSEvaluateScript(script, source_url, starting_line_number)`
(JSContext.cpp:17-35). The `this` object handed to the engine is `nullptr`. -/
def JSEvaluateScript (api : ScriptEngine JSString σ) (s : σ) (js_global_context_ref_ : Nat)
    (script source_url : JSString) (starting_line_number : Int) : Outcome JSString σ JSValue :=
  let this_object : Nat := 0
  let source_url_ref := source_url_ref api source_url
  evaluate_outcome api js_global_context_ref_
    (.JSEvaluateScript js_global_context_ref_ script this_object source_url_ref
      starting_line_number)
    (api.JSEvaluateScript s js_global_context_ref_ script this_object source_url_ref
      starting_line_number)

/-- The member function
`JSEvaluateScript(script, this_object, source_url, starting_line_number)`
(JSContext.cpp:38-55). The `JSObject` argument is given by its handle. -/
def JSEvaluateScript_this (api : ScriptEngine JSString σ) (s : σ) (js_global_context_ref_ : Nat)
    (script : JSString) (this_object : Nat) (source_url : JSString)
    (starting_line_number : Int) : Outcome JSString σ JSValue :=
  let source_url_ref := source_url_ref api source_url
  evaluate_outcome api js_global_context_ref_
    (.JSEvaluateScript js_global_context_ref_ script this_object source_url_ref
      starting_line_number)
    (api.JSEvaluateScript s js_global_context_ref_ script this_object source_url_ref
      starting_line_number)

/-- The member function `JSCheckScriptSyntax(script, source_url, starting_line_number)`
(JSContext.cpp:57-71). -/
def JSCheckScriptSyntax (api : ScriptEngine JSString σ) (s : σ) (js_global_context_ref_ : Nat)
    (script source_url : JSString) (starting_line_number : Int) : Outcome JSString σ Bool :=
  let source_url_ref := source_url_ref api source_url
  let returned := api.JSCheckScriptSyntax s js_global_context_ref_ script source_url_ref
    starting_line_number
  let result := returned.1
  let exception := returned.2.1
  let s1 := returned.2.2
  let call : Call JSString :=
    .JSCheckScriptSyntax js_global_context_ref_ script source_url_ref starting_line_number
  if exception ≠ 0 then
    let message := api.to_std_string s1 js_global_context_ref_ exception
    { result := .error (.invalid_argument message)
      engine := s1
      calls := [call, .JSValue_construct js_global_context_ref_ exception] }
  else
    { result := .ok result, engine := s1, calls := [call] }

end JSContext

/-! ## JSClass.hpp: the registry of class names -/

/-- Modelled from the spec: `JSClass::ThrowRuntimeErrorIfJSClassAlreadyExists`, declared at
JSClass.hpp:161 and defined outside this development, applied to the static map
`js_class_map_` (JSClass.hpp:164) and the name to register: "class names must be unique
process-wide at registration time — attempting to register a second class under a name
already present fails with a runtime-error condition". -/
def JSClass.ThrowRuntimeErrorIfJSClassAlreadyExists {JSString : Type} [DecidableEq JSString]
    (js_class_map_ : List (JSString × JSClass)) (name : JSString) : Except Exception Unit :=
  if name ∈ js_class_map_.map Prod.fst then
    .error (.runtime_error "A JSClass with this name already exists.")
  else
    .ok ()

/-- Modelled from the spec: the registration of a class under a name, defined outside this
development: the check `ThrowRuntimeErrorIfJSClassAlreadyExists`, and then the entry of the
class in `js_class_map_`. "Registering two Classes with the same name in the same process
fails on the second registration with the runtime-error condition; registering under distinct
names always succeeds." The result is what the registration returns or throws, and the map
afterwards. -/
def JSClass.register_class {JSString : Type} [DecidableEq JSString]
    (js_class_map_ : List (JSString × JSClass)) (name : JSString) (js_class : JSClass) :
    Except Exception Unit × List (JSString × JSClass) :=
  match JSClass.ThrowRuntimeErrorIfJSClassAlreadyExists js_class_map_ name with
  | .error err => (.error err, js_class_map_)
  | .ok () => (.ok (), (name, js_class) :: js_class_map_)

/-- The names under which a class is registered in `js_class_map_`. -/
def JSClass.registered_names {JSString : Type} (js_class_map_ : List (JSString × JSClass)) :
    List JSString :=
  js_class_map_.map Prod.fst

/-! ## Examples for the script functions -/

/-- A small engine for examples. The script `1+` has a syntax error, reported as the
exception handle `8`; the script `throw new Error('x')` throws the exception handle `9`; any
other script evaluates to the value handle `40`. A starting line number below 1 is taken as
1, and the state of the engine is the starting line number it used for the last script. -/
def example_script_engine : ScriptEngine String Nat where
  length := fun s => s.length
  JSEvaluateScript := fun _ _ script _ _ starting_line_number =>
    if script = "1+" then (0, 8, (max 1 starting_line_number).toNat)
    else if script = "throw new Error('x')" then (0, 9, (max 1 starting_line_number).toNat)
    else (40, 0, (max 1 starting_line_number).toNat)
  JSCheckScriptSyntax := fun _ _ script _ starting_line_number =>
    if script = "1+" then (false, 8, (max 1 starting_line_number).toNat)
    else (true, 0, (max 1 starting_line_number).toNat)
  to_std_string := fun _ _ value =>
    if value = 8 then "SyntaxError: Unexpected end of script"
    else if value = 9 then "Error: x"
    else "undefined"

namespace JSNativeObjectFunctionPropertyCallback

variable {JSString Callback : Type}

/-- The copy constructor (lines 98-106): the two names, the callback and the attribute set
are copied from `rhs`; the attribute bits and the hash are computed anew. -/
def copy_construct (ext : Externals JSString)
    (rhs : JSNativeObjectFunctionPropertyCallback JSString Callback) :
    JSNativeObjectFunctionPropertyCallback JSString Callback :=
  let function_name_ := rhs.function_name_
  let function_name_for_js_static_function_ := rhs.function_name_for_js_static_function_
  let call_as_function_callback_ := rhs.call_as_function_callback_
  let attributes_ := rhs.attributes_
  let js_property_attributes_ := ext.ToJSPropertyAttribute attributes_
  let hash_value_ := ext.hash_val function_name_ js_property_attributes_
  { function_name_, function_name_for_js_static_function_, call_as_function_callback_,
    attributes_, js_property_attributes_, hash_value_ }

/-- The move constructor (lines 108-116), which has the member initialisers of the copy
constructor: the new object, and the source as the constructor leaves it. -/
def move_construct (ext : Externals JSString)
    (rhs : JSNativeObjectFunctionPropertyCallback JSString Callback) :
    JSNativeObjectFunctionPropertyCallback JSString Callback ×
      JSNativeObjectFunctionPropertyCallback JSString Callback :=
  let function_name_ := rhs.function_name_
  let function_name_for_js_static_function_ := rhs.function_name_for_js_static_function_
  let call_as_function_callback_ := rhs.call_as_function_callback_
  let attributes_ := rhs.attributes_
  let js_property_attributes_ := ext.ToJSPropertyAttribute attributes_
  let hash_value_ := ext.hash_val function_name_ js_property_attributes_
  ({ function_name_, function_name_for_js_static_function_, call_as_function_callback_,
     attributes_, js_property_attributes_, hash_value_ }, rhs)

/-- The friend function `swap` (lines 128-140): the two objects after the call. Lines
134-138 exchange `function_name_`, `function_name_for_js_static_function_`,
`call_as_function_callback_`, `attributes_` and `js_property_attributes_`. Line 139 names
`hash_val_`, which is not a data member of the class: the hash is stored in `hash_value_`
(line 163), and no statement of the function exchanges it. -/
def swap (first second : JSNativeObjectFunctionPropertyCallback JSString Callback) :
    JSNativeObjectFunctionPropertyCallback JSString Callback ×
      JSNativeObjectFunctionPropertyCallback JSString Callback :=
  ({ function_name_ := second.function_name_
     function_name_for_js_static_function_ := second.function_name_for_js_static_function_
     call_as_function_callback_ := second.call_as_function_callback_
     attributes_ := second.attributes_
     js_property_attributes_ := second.js_property_attributes_
     hash_value_ := first.hash_value_ },
   { function_name_ := first.function_name_
     function_name_for_js_static_function_ := first.function_name_for_js_static_function_
     call_as_function_callback_ := first.call_as_function_callback_
     attributes_ := first.attributes_
     js_property_attributes_ := first.js_property_attributes_
     hash_value_ := second.hash_value_ })

/-- The body of the unified assignment operator (lines 123-126), which takes its argument by
value: `*this` and the parameter object after the call. -/
def operator_assign (self rhs : JSNativeObjectFunctionPropertyCallback JSString Callback) :
    JSNativeObjectFunctionPropertyCallback JSString Callback ×
      JSNativeObjectFunctionPropertyCallback JSString Callback :=
  swap self rhs

/-- The expression `a = b` for an lvalue `b`: the parameter of `operator=` is copy-constructed
from `b` and the body runs. The result is `a` after the assignment. -/
def assign (ext : Externals JSString)
    (a b : JSNativeObjectFunctionPropertyCallback JSString Callback) :
    JSNativeObjectFunctionPropertyCallback JSString Callback :=
  (operator_assign a (copy_construct ext b)).1

/-- The descriptors that a program can obtain: those returned by the constructor, and those
obtained from such descriptors by copy construction, move construction, assignment and
`swap`. -/
inductive Reachable (ext : Externals JSString) :
    JSNativeObjectFunctionPropertyCallback JSString Callback → Prop where
  | construct (function_name : JSString) (call_as_function_callback : Option Callback)
      (attributes : Finset JSPropertyAttribute)
      (d : JSNativeObjectFunctionPropertyCallback JSString Callback) :
      construct ext function_name call_as_function_callback attributes = .ok d →
      Reachable ext d
  | copy_construct (d : JSNativeObjectFunctionPropertyCallback JSString Callback) :
      Reachable ext d → Reachable ext (copy_construct ext d)
  | move_construct (d : JSNativeObjectFunctionPropertyCallback JSString Callback) :
      Reachable ext d → Reachable ext (move_construct ext d).1
  | assign (a b : JSNativeObjectFunctionPropertyCallback JSString Callback) :
      Reachable ext a → Reachable ext b → Reachable ext (assign ext a b)
  | swap_first (a b : JSNativeObjectFunctionPropertyCallback JSString Callback) :
      Reachable ext a → Reachable ext b → Reachable ext (swap a b).1
  | swap_second (a b : JSNativeObjectFunctionPropertyCallback JSString Callback) :
      Reachable ext a → Reachable ext b → Reachable ext (swap a b).2

/-- The stored plain-text name of a descriptor is the conversion of its `JSString` name. -/
def name_consistent (ext : Externals JSString)
    (d : JSNativeObjectFunctionPropertyCallback JSString Callback) : Prop :=
  d.function_name_for_js_static_function_ = ext.to_std_string d.function_name_

end JSNativeObjectFunctionPropertyCallback

/-! ## JSContext.cpp: the script functions called on an object -/

namespace JSContext

variable {JSString σ : Type}

/-- The member function `JSEvaluateScript(script, source_url, starting_line_number)` called
on the object `self`. The handle that `JSContext.cpp` names `js_global_context_ref_` is the
global context handle of the object. The function is declared `const` (JSContext.hpp:377)
and its body assigns to no member: the second component, the object after the call, is the
object before the call. -/
def JSEvaluateScript_on (api : ScriptEngine JSString σ) (s : σ) (e : Engine) (self : JSContext)
    (script source_url : JSString) (starting_line_number : Int) :
    Outcome JSString σ JSValue × JSContext :=
  (JSEvaluateScript api s (operator_JSGlobalContextRef e self) script source_url
    starting_line_number, self)

/-- The member function
`JSEvaluateScript(script, this_object, source_url, starting_line_number)` called on the
object `self`, as `JSEvaluateScript_on` (JSContext.hpp:378). -/
def JSEvaluateScript_this_on (api : ScriptEngine JSString σ) (s : σ) (e : Engine)
    (self : JSContext) (script : JSString) (this_object : Nat) (source_url : JSString)
    (starting_line_number : Int) : Outcome JSString σ JSValue × JSContext :=
  (JSEvaluateScript_this api s (operator_JSGlobalContextRef e self) script this_object
    source_url starting_line_number, self)

end JSContext

end JavaScriptCoreCPP

/-! # Theorems -/

namespace JavaScriptCoreCPP

open JSNativeObjectFunctionPropertyCallback

section Descriptor

variable {JSString Callback : Type}

/-- No enumerator of `JSPropertyAttribute` has a bit position outside `std::bitset<4>`. -/
theorem underlying_lt_four (a : JSPropertyAttribute) : a.underlying < 4 := by
  cases a <;> decide

/-- The bitset loop of the constructor never throws. -/
theorem bitset_set_throws_eq_false (attributes : Finset JSPropertyAttribute) :
    bitset_set_throws attributes = false := by
  unfold bitset_set_throws
  rw [decide_eq_false_iff_not]
  rintro ⟨a, -, ha⟩
  have := underlying_lt_four a
  omega

/-- What a successful construction returns. -/
theorem construct_eq_ok (ext : Externals JSString) (function_name : JSString)
    (call_as_function_callback : Option Callback) (attributes : Finset JSPropertyAttribute)
    (d : JSNativeObjectFunctionPropertyCallback JSString Callback)
    (h : construct ext function_name call_as_function_callback attributes = .ok d) :
    d = { function_name_ := function_name,
          function_name_for_js_static_function_ := ext.to_std_string function_name,
          call_as_function_callback_ := call_as_function_callback,
          attributes_ := attributes,
          js_property_attributes_ := ext.ToJSPropertyAttribute attributes,
          hash_value_ := ext.hash_val function_name (ext.ToJSPropertyAttribute attributes) } := by
  unfold construct at h
  simp only at h
  split_ifs at h
  exact (Except.ok.inj h).symm

/-- Equal descriptors have equal names and equal attribute sets. -/
theorem operator_eq_name_attributes [DecidableEq JSString]
    (a b : JSNativeObjectFunctionPropertyCallback JSString Callback)
    (h : operator_eq a b = true) :
    a.function_name_ = b.function_name_ ∧ a.attributes_ = b.attributes_ := by
  unfold operator_eq at h
  by_cases hn : a.function_name_ = b.function_name_
  · refine ⟨hn, ?_⟩
    cases ha : a.call_as_function_callback_ <;> cases hb : b.call_as_function_callback_ <;>
      simp_all
  · simp [hn] at h

/-- C1: whatever the attribute set and whether or not a callback is given, constructing a
descriptor from a name whose text is empty throws `std::invalid_argument`, and so returns no
descriptor. -/
theorem construct_empty_name_invalid_argument (ext : Externals JSString)
    (function_name : JSString) (call_as_function_callback : Option Callback)
    (attributes : Finset JSPropertyAttribute)
    (h : (ext.to_std_string function_name).isEmpty = true) :
    construct ext function_name call_as_function_callback attributes =
      .error (.invalid_argument
        "The function_name is empty. A valid JavaScript property name must be provided.") ∧
    ∀ d, construct ext function_name call_as_function_callback attributes ≠ .ok d := by
  have key : construct ext function_name call_as_function_callback attributes =
      .error (.invalid_argument
        "The function_name is empty. A valid JavaScript property name must be provided.") := by
    unfold construct
    simp only [h, if_true]
  refine ⟨key, ?_⟩
  intro d hd
  rw [key] at hd
  cases hd

/-- Witness for C1: the empty name, no callback and the attribute set `{ReadOnly}`. -/
theorem construct_empty_name_invalid_argument_witness :
    (example_externals.to_std_string "").isEmpty = true ∧
    (construct example_externals "" (none : Option Nat) {.ReadOnly} =
      .error (.invalid_argument
        "The function_name is empty. A valid JavaScript property name must be provided.") ∧
     ∀ d, construct example_externals "" (none : Option Nat) {.ReadOnly} ≠ .ok d) :=
  ⟨by decide, construct_empty_name_invalid_argument example_externals "" none {.ReadOnly}
    (by decide)⟩

/-- C2: for a name whose text is not empty and any attribute set, the constructor throws
`std::invalid_argument` exactly when the callback is null, and with a callback it succeeds,
returning a descriptor with the given name, callback and attribute set. -/
theorem construct_nonempty_name_fails_iff_callback_null (ext : Externals JSString)
    (function_name : JSString) (call_as_function_callback : Option Callback)
    (attributes : Finset JSPropertyAttribute)
    (h : (ext.to_std_string function_name).isEmpty = false) :
    ((∃ message, construct ext function_name call_as_function_callback attributes =
        .error (.invalid_argument message)) ↔ call_as_function_callback = none) ∧
    (call_as_function_callback.isSome = true →
      ∃ d, construct ext function_name call_as_function_callback attributes = .ok d ∧
        d.get_function_name = function_name ∧
        d.get_call_as_function_callback = call_as_function_callback ∧
        d.get_attributes = attributes) := by
  cases call_as_function_callback with
  | none =>
    refine ⟨⟨fun _ => rfl, fun _ =>
      ⟨"The call_as_function_callback must be provided.", ?_⟩⟩, fun hc => by cases hc⟩
    unfold construct
    simp only [h, Option.isNone_none, if_true]
    rfl
  | some c =>
    have key : construct ext function_name (some c) attributes =
        .ok { function_name_ := function_name,
              function_name_for_js_static_function_ := ext.to_std_string function_name,
              call_as_function_callback_ := some c,
              attributes_ := attributes,
              js_property_attributes_ := ext.ToJSPropertyAttribute attributes,
              hash_value_ :=
                ext.hash_val function_name (ext.ToJSPropertyAttribute attributes) } := by
      unfold construct
      simp only [h, Option.isNone_some, bitset_set_throws_eq_false]
      rfl
    refine ⟨⟨?_, fun hc => by cases hc⟩, fun _ => ⟨_, key, rfl, rfl, rfl⟩⟩
    rintro ⟨message, hm⟩
    rw [key] at hm
    cases hm

/-- Witness for C2: the name "f" with the callback `7` and the attribute set `{ReadOnly}`. -/
theorem construct_nonempty_name_fails_iff_callback_null_witness :
    (example_externals.to_std_string "f").isEmpty = false ∧
    ∃ d, construct example_externals "f" (some 7) {.ReadOnly} = .ok d ∧
      d.get_function_name = "f" ∧ d.get_call_as_function_callback = some 7 ∧
      d.get_attributes = {.ReadOnly} :=
  ⟨by decide, (construct_nonempty_name_fails_iff_callback_null example_externals "f" (some 7)
    {.ReadOnly} (by decide)).2 rfl⟩

/-- C3: `a == b` holds exactly when the names are equal, both or neither of the two carries
a callback, and the attribute sets are equal; which callback is carried plays no part. And
`a != b` is the negation of `a == b`. -/
theorem operator_eq_iff_name_presence_attributes [DecidableEq JSString]
    (a b : JSNativeObjectFunctionPropertyCallback JSString Callback) :
    (operator_eq a b = true ↔
      a.get_function_name = b.get_function_name ∧
      a.get_call_as_function_callback.isSome = b.get_call_as_function_callback.isSome ∧
      a.get_attributes = b.get_attributes) ∧
    operator_ne a b = !(operator_eq a b) := by
  refine ⟨?_, rfl⟩
  unfold operator_eq get_function_name get_call_as_function_callback get_attributes
  by_cases hn : a.function_name_ = b.function_name_
  · cases ha : a.call_as_function_callback_ <;> cases hb : b.call_as_function_callback_ <;>
      simp [hn]
  · simp [hn]

/-- C4, the code at a failing input: for the descriptors `("b", ∅)` and `("a", {ReadOnly})`,
both returned by the constructor, `operator<` answers `true` although "b" is neither less
than nor equal to "a", because the attribute sets are compared without the names being equal.
The operator then also answers `true` with the arguments exchanged. -/
theorem operator_lt_ignores_name_order :
    construct example_externals "b" (some 0) ∅ = .ok example_descriptor_b ∧
    construct example_externals "a" (some 0) {.ReadOnly} = .ok example_descriptor_a ∧
    operator_lt example_externals example_descriptor_b example_descriptor_a = true ∧
    ¬ (example_descriptor_b.function_name_for_js_static_function_ <
        example_descriptor_a.function_name_for_js_static_function_ ∨
       (example_descriptor_b.function_name_for_js_static_function_ =
          example_descriptor_a.function_name_for_js_static_function_ ∧
        example_externals.attributes_less example_descriptor_b.attributes_
          example_descriptor_a.attributes_ = true)) ∧
    operator_lt example_externals example_descriptor_a example_descriptor_b = true := by
  have hba : ¬ ("b" : String) < "a" := by rw [String.lt_iff_toList_lt]; decide
  have hab : ("a" : String) < "b" := by rw [String.lt_iff_toList_lt]; decide
  have hless : example_externals.attributes_less ∅ {.ReadOnly} = true := by decide
  refine ⟨rfl, rfl, ?_, ?_, ?_⟩
  · simp only [operator_lt, example_descriptor_a, example_descriptor_b, hba, if_false, hless]
  · simp only [example_descriptor_a, example_descriptor_b]
    rintro (h | ⟨h, -⟩)
    · exact hba h
    · exact absurd h (by decide)
  · simp only [operator_lt, example_descriptor_a, example_descriptor_b, hab, if_true]

/-- C5: the hash of a descriptor returned by the constructor is the hash computed there from
the name and the attribute set. So two descriptors constructed from the same name and the
same attribute set have the same `get_hash_value()`, whatever their callbacks, and `a == b`
implies that the hashes of `a` and `b` are equal. -/
theorem hash_value_depends_on_name_and_attributes [DecidableEq JSString]
    (ext : Externals JSString) (name_a name_b : JSString) (callback_a callback_b : Option Callback)
    (attributes_a attributes_b : Finset JSPropertyAttribute)
    (a b : JSNativeObjectFunctionPropertyCallback JSString Callback)
    (ha : construct ext name_a callback_a attributes_a = .ok a)
    (hb : construct ext name_b callback_b attributes_b = .ok b) :
    a.get_hash_value = ext.hash_val name_a (ext.ToJSPropertyAttribute attributes_a) ∧
    (name_a = name_b → attributes_a = attributes_b → a.get_hash_value = b.get_hash_value) ∧
    (operator_eq a b = true → hash a = hash b) := by
  have ea := construct_eq_ok ext name_a callback_a attributes_a a ha
  have eb := construct_eq_ok ext name_b callback_b attributes_b b hb
  subst ea eb
  refine ⟨rfl, ?_, ?_⟩
  · intro hn hattr
    subst hn hattr
    rfl
  · intro heq
    have h := (operator_eq_name_attributes _ _ heq)
    simp only at h
    obtain ⟨hn, hattr⟩ := h
    subst hn hattr
    rfl

/-- Witness for C5: two descriptors named "f" with the attribute set `{ReadOnly}` and the
different callbacks `7` and `8`. -/
theorem hash_value_depends_on_name_and_attributes_witness :
    construct example_externals "f" (some 7) {.ReadOnly} = .ok (example_descriptor_f 7) ∧
    construct example_externals "f" (some 8) {.ReadOnly} = .ok (example_descriptor_f 8) ∧
    (example_descriptor_f 7).get_call_as_function_callback ≠
      (example_descriptor_f 8).get_call_as_function_callback ∧
    (example_descriptor_f 7).get_hash_value = (example_descriptor_f 8).get_hash_value ∧
    (example_descriptor_f 7).get_hash_value = 33 :=
  ⟨rfl, rfl, by decide,
    (hash_value_depends_on_name_and_attributes example_externals "f" "f" (some 7) (some 8)
      {JSPropertyAttribute.ReadOnly} {JSPropertyAttribute.ReadOnly}
      (example_descriptor_f 7) (example_descriptor_f 8) rfl rfl).2.1
      rfl rfl,
    by decide⟩

end Descriptor

section Engine

/-- The reference counts after a retain. -/
theorem JSContextGroupRetain_group_refs (e : Engine) (group g : Nat) :
    (JSContextGroupRetain e group).group_refs g =
      e.group_refs g + if g = group then 1 else 0 := by
  unfold JSContextGroupRetain
  simp only [Function.update_apply]
  split_ifs with h
  · rw [h]
  · rfl

/-- A release succeeds when a reference is held. -/
theorem JSContextGroupRelease_isSome (e : Engine) (group : Nat)
    (h : 1 ≤ e.group_refs group) : ∃ e1, JSContextGroupRelease e group = some e1 := by
  unfold JSContextGroupRelease
  rw [if_neg (by omega)]
  exact ⟨_, rfl⟩

/-- The reference counts before and after a successful release. -/
theorem JSContextGroupRelease_group_refs (e e1 : Engine) (group g : Nat)
    (h : JSContextGroupRelease e group = some e1) :
    e1.group_refs g + (if g = group then 1 else 0) = e.group_refs g := by
  unfold JSContextGroupRelease at h
  split_ifs at h with h0
  cases h
  simp only [Function.update_apply]
  split_ifs with hg
  · subst hg; omega
  · rfl

/-- A release changes only the reference counts of group handles. -/
theorem JSContextGroupRelease_frame (e e1 : Engine) (group : Nat)
    (h : JSContextGroupRelease e group = some e1) :
    e1.next_group = e.next_group ∧ e1.context_refs = e.context_refs ∧
      e1.JSContextGetGlobalContext = e.JSContextGetGlobalContext := by
  unfold JSContextGroupRelease at h
  split_ifs at h with h0
  cases h
  exact ⟨rfl, rfl, rfl⟩

end Engine

section Lists

variable {α : Type}

/-- Counting after one element of a list is replaced. -/
theorem countP_set_add (p : α → Bool) (l : List α) (i : Nat) (x y : α)
    (h : l[i]? = some x) :
    (l.set i y).countP p + (if p x = true then 1 else 0) =
      l.countP p + (if p y = true then 1 else 0) := by
  induction l generalizing i with
  | nil => simp at h
  | cons a t ih =>
    cases i with
    | zero =>
      simp only [List.getElem?_cons_zero, Option.some.injEq] at h
      subst h
      simp only [List.set_cons_zero, List.countP_cons]
      omega
    | succ n =>
      simp only [List.getElem?_cons_succ] at h
      have := ih n h
      simp only [List.set_cons_succ, List.countP_cons]
      omega

/-- Counting after one element of a list is removed. -/
theorem countP_eraseIdx_add (p : α → Bool) (l : List α) (i : Nat) (x : α)
    (h : l[i]? = some x) :
    (l.eraseIdx i).countP p + (if p x = true then 1 else 0) = l.countP p := by
  induction l generalizing i with
  | nil => simp at h
  | cons a t ih =>
    cases i with
    | zero =>
      simp only [List.getElem?_cons_zero, Option.some.injEq] at h
      subst h
      simp only [List.eraseIdx_cons_zero, List.countP_cons]
    | succ n =>
      simp only [List.getElem?_cons_succ] at h
      have := ih n h
      simp only [List.eraseIdx_cons_succ, List.countP_cons]
      omega

/-- An element of a list is counted by a predicate it satisfies. -/
theorem one_le_countP_of_get (p : α → Bool) (l : List α) (i : Nat) (x : α)
    (h : l[i]? = some x) (hp : p x = true) : 1 ≤ l.countP p := by
  have hm : x ∈ l := List.mem_iff_getElem?.mpr ⟨i, h⟩
  exact List.countP_pos_iff.mpr ⟨x, hm, hp⟩

/-- Replacing an element of a list by itself changes nothing. -/
theorem set_same_element (l : List α) (i : Nat) (x : α) (h : l[i]? = some x) :
    l.set i x = l := by
  induction l generalizing i with
  | nil => rfl
  | cons a t ih =>
    cases i with
    | zero =>
      simp only [List.getElem?_cons_zero, Option.some.injEq] at h
      subst h
      rfl
    | succ n =>
      simp only [List.getElem?_cons_succ] at h
      simp only [List.set_cons_succ, ih n h]

end Lists

section Lifetimes

/-- A live object holds a handle to which the engine counts at least one reference. -/
theorem one_le_group_refs_of_live (w : World) (hc : w.counts_match) (i : Nat)
    (x : JSContextGroup) (h : w.wrappers[i]? = some x) :
    1 ≤ w.engine.group_refs x.js_context_group_ref__ := by
  rw [hc x.js_context_group_ref__]
  exact one_le_countP_of_get _ _ i x h (by simp)

/-- A handle held by a live object is one the engine has handed out. -/
theorem lt_next_group_of_live (w : World) (hc : w.counts_match) (hf : w.unused_fresh)
    (i : Nat) (x : JSContextGroup) (h : w.wrappers[i]? = some x) :
    x.js_context_group_ref__ < w.engine.next_group := by
  by_contra hlt
  have h0 := hf x.js_context_group_ref__ (by omega)
  have h1 := one_le_group_refs_of_live w hc i x h
  omega

/-- The invariant after `a = b` or `a = std::move(b)`, in terms of the engine after the
retain of the handle of `b` and the release of the previous handle of `a`. -/
theorem assign_preserves (w : World) (hc : w.counts_match) (hf : w.unused_fresh)
    (i j : Nat) (a b : JSContextGroup) (e2 : Engine)
    (ha : w.wrappers[i]? = some a) (hb : w.wrappers[j]? = some b)
    (hr : JSContextGroupRelease
      (JSContextGroupRetain w.engine b.js_context_group_ref__) a.js_context_group_ref__ = some e2) :
    World.counts_match
      { engine := e2,
        wrappers := w.wrappers.set i { js_context_group_ref__ := b.js_context_group_ref__ } } ∧
    World.unused_fresh
      { engine := e2,
        wrappers := w.wrappers.set i { js_context_group_ref__ := b.js_context_group_ref__ } } := by
  have hrel := fun g => JSContextGroupRelease_group_refs _ _ _ g hr
  have hret := fun g => JSContextGroupRetain_group_refs w.engine b.js_context_group_ref__ g
  have hnext : e2.next_group = w.engine.next_group := (JSContextGroupRelease_frame _ _ _ hr).1
  have hblt := lt_next_group_of_live w hc hf j b hb
  constructor
  · intro g
    have h1 := hrel g
    have h2 := hret g
    have h3 := hc g
    have h4 := countP_set_add (fun x : JSContextGroup => x.js_context_group_ref__ == g)
      w.wrappers i a { js_context_group_ref__ := b.js_context_group_ref__ } ha
    simp only [World.holders, beq_iff_eq] at h3 h4 ⊢
    split_ifs at h1 h2 h4 <;> omega
  · intro g hg
    have h1 := hrel g
    have h2 := hret g
    have h3 := hf g
    dsimp only at hg ⊢
    rw [hnext] at hg
    have h5 := h3 hg
    split_ifs at h1 h2 <;> omega

/-- Every operation that succeeds keeps the invariant. -/
theorem step_preserves (w w1 : World) (op : Op) (hc : w.counts_match) (hf : w.unused_fresh)
    (h : w.step op = some w1) : w1.counts_match ∧ w1.unused_fresh := by
  cases op with
  | default_construct =>
    simp only [World.step, JSContextGroup.default_construct, JSContextGroupCreate,
      Option.some.injEq] at h
    subst h
    constructor
    · intro g
      have h3 := hc g
      have h4 := hf g
      simp only [World.holders, List.countP_append, List.countP_cons, List.countP_nil,
        beq_iff_eq, Function.update_apply] at h3 ⊢
      split_ifs <;> omega
    · intro g hg
      have h4 := hf g
      dsimp only at hg ⊢
      simp only [Function.update_apply]
      split_ifs <;> omega
  | copy_construct i =>
    simp only [World.step, JSContextGroup.copy_construct, Option.map_eq_some'] at h
    obtain ⟨rhs, hrhs, h⟩ := h
    subst h
    have hlt := lt_next_group_of_live w hc hf i rhs hrhs
    constructor
    · intro g
      have h2 := JSContextGroupRetain_group_refs w.engine rhs.js_context_group_ref__ g
      have h3 := hc g
      simp only [World.holders, List.countP_append, List.countP_cons, List.countP_nil,
        beq_iff_eq] at h3 ⊢
      split_ifs at h2 ⊢ <;> omega
    · intro g hg
      have h2 := JSContextGroupRetain_group_refs w.engine rhs.js_context_group_ref__ g
      have h4 := hf g
      dsimp only [JSContextGroupRetain] at hg h2 ⊢
      split_ifs at h2 <;> omega
  | move_construct i =>
    simp only [World.step, JSContextGroup.move_construct, Option.map_eq_some'] at h
    obtain ⟨rhs, hrhs, h⟩ := h
    subst h
    have hlt := lt_next_group_of_live w hc hf i rhs hrhs
    rw [set_same_element w.wrappers i rhs hrhs]
    constructor
    · intro g
      have h2 := JSContextGroupRetain_group_refs w.engine rhs.js_context_group_ref__ g
      have h3 := hc g
      simp only [World.holders, List.countP_append, List.countP_cons, List.countP_nil,
        beq_iff_eq] at h3 ⊢
      split_ifs at h2 ⊢ <;> omega
    · intro g hg
      have h2 := JSContextGroupRetain_group_refs w.engine rhs.js_context_group_ref__ g
      have h4 := hf g
      dsimp only [JSContextGroupRetain] at hg h2 ⊢
      split_ifs at h2 <;> omega
  | assign i j =>
    simp only [World.step, JSContextGroup.assign, JSContextGroup.copy_construct,
      JSContextGroup.operator_assign, JSContextGroup.swap, JSContextGroup.destruct,
      Option.bind_eq_some, Option.map_eq_some'] at h
    obtain ⟨a, ha, b, hb, ⟨a1, e2⟩, ⟨e3, hr, hpair⟩, h⟩ := h
    cases hpair
    subst h
    exact assign_preserves w hc hf i j a b e2 ha hb hr
  | move_assign i j =>
    simp only [World.step, JSContextGroup.move_assign, JSContextGroup.move_construct,
      JSContextGroup.operator_assign, JSContextGroup.swap, JSContextGroup.destruct,
      Option.bind_eq_some, Option.map_eq_some'] at h
    obtain ⟨a, ha, b, hb, ⟨a1, b1, e2⟩, ⟨e3, hr, hpair⟩, h⟩ := h
    cases hpair
    subst h
    rw [set_same_element w.wrappers j b hb]
    exact assign_preserves w hc hf i j a b e2 ha hb hr
  | swap i j =>
    simp only [World.step, JSContextGroup.swap, Option.bind_eq_some, Option.map_eq_some'] at h
    obtain ⟨first, hfirst, second, hsecond, h⟩ := h
    subst h
    refine ⟨?_, hf⟩
    intro g
    have h3 := hc g
    have hi : i < w.wrappers.length := (List.getElem?_eq_some.mp hfirst).1
    have h4 := countP_set_add (fun x : JSContextGroup => x.js_context_group_ref__ == g)
      w.wrappers i first { js_context_group_ref__ := second.js_context_group_ref__ } hfirst
    have hj : (w.wrappers.set i { js_context_group_ref__ := second.js_context_group_ref__ })[j]? =
        some { js_context_group_ref__ := second.js_context_group_ref__ } := by
      rw [List.getElem?_set]
      split_ifs
      · rfl
      · rw [hsecond]
    have h5 := countP_set_add (fun x : JSContextGroup => x.js_context_group_ref__ == g)
      (w.wrappers.set i { js_context_group_ref__ := second.js_context_group_ref__ }) j _
      { js_context_group_ref__ := first.js_context_group_ref__ } hj
    simp only [World.holders, beq_iff_eq] at h3 h4 h5 ⊢
    split_ifs at h4 h5 <;> omega
  | destruct i =>
    simp only [World.step, JSContextGroup.destruct, Option.bind_eq_some,
      Option.map_eq_some'] at h
    obtain ⟨self, hself, e1, hr, h⟩ := h
    subst h
    have hrel := fun g => JSContextGroupRelease_group_refs _ _ _ g hr
    have hnext : e1.next_group = w.engine.next_group := (JSContextGroupRelease_frame _ _ _ hr).1
    constructor
    · intro g
      have h1 := hrel g
      have h3 := hc g
      have h4 := countP_eraseIdx_add (fun x : JSContextGroup => x.js_context_group_ref__ == g)
        w.wrappers i self hself
      simp only [World.holders, beq_iff_eq] at h3 h4 ⊢
      split_ifs at h1 h4 <;> omega
    · intro g hg
      have h1 := hrel g
      dsimp only at hg ⊢
      rw [hnext] at hg
      have h4 := hf g hg
      split_ifs at h1 <;> omega

/-- From a state that satisfies the invariant, every operation on live objects succeeds: the
engine is never asked to release a handle no reference to which is held. -/
theorem step_isSome (w : World) (op : Op) (hc : w.counts_match) (hv : w.valid op = true) :
    ∃ w1, w.step op = some w1 := by
  cases op with
  | default_construct => exact ⟨_, rfl⟩
  | copy_construct i =>
    simp only [World.valid, decide_eq_true_eq] at hv
    simp only [World.step, List.getElem?_eq_getElem hv, Option.map_some']
    exact ⟨_, rfl⟩
  | move_construct i =>
    simp only [World.valid, decide_eq_true_eq] at hv
    simp only [World.step, List.getElem?_eq_getElem hv, Option.map_some']
    exact ⟨_, rfl⟩
  | assign i j =>
    simp only [World.valid, Bool.and_eq_true, decide_eq_true_eq] at hv
    have ha := List.getElem?_eq_getElem hv.1
    have hlive := one_le_group_refs_of_live w hc i _ ha
    have hret := JSContextGroupRetain_group_refs w.engine
      (w.wrappers[j]).js_context_group_ref__ (w.wrappers[i]).js_context_group_ref__
    obtain ⟨e2, he2⟩ := JSContextGroupRelease_isSome
      (JSContextGroupRetain w.engine (w.wrappers[j]).js_context_group_ref__)
      (w.wrappers[i]).js_context_group_ref__ (by omega)
    simp only [World.step, ha, List.getElem?_eq_getElem hv.2, Option.some_bind,
      JSContextGroup.assign, JSContextGroup.copy_construct, JSContextGroup.operator_assign,
      JSContextGroup.swap, JSContextGroup.destruct, he2, Option.map_some']
    exact ⟨_, rfl⟩
  | move_assign i j =>
    simp only [World.valid, Bool.and_eq_true, decide_eq_true_eq] at hv
    have ha := List.getElem?_eq_getElem hv.1
    have hlive := one_le_group_refs_of_live w hc i _ ha
    have hret := JSContextGroupRetain_group_refs w.engine
      (w.wrappers[j]).js_context_group_ref__ (w.wrappers[i]).js_context_group_ref__
    obtain ⟨e2, he2⟩ := JSContextGroupRelease_isSome
      (JSContextGroupRetain w.engine (w.wrappers[j]).js_context_group_ref__)
      (w.wrappers[i]).js_context_group_ref__ (by omega)
    simp only [World.step, ha, List.getElem?_eq_getElem hv.2, Option.some_bind,
      JSContextGroup.move_assign, JSContextGroup.move_construct, JSContextGroup.operator_assign,
      JSContextGroup.swap, JSContextGroup.destruct, he2, Option.map_some']
    exact ⟨_, rfl⟩
  | swap i j =>
    simp only [World.valid, Bool.and_eq_true, decide_eq_true_eq] at hv
    simp only [World.step, List.getElem?_eq_getElem hv.1, List.getElem?_eq_getElem hv.2,
      Option.some_bind, Option.map_some']
    exact ⟨_, rfl⟩
  | destruct i =>
    simp only [World.valid, decide_eq_true_eq] at hv
    have ha := List.getElem?_eq_getElem hv
    have hlive := one_le_group_refs_of_live w hc i _ ha
    obtain ⟨e2, he2⟩ := JSContextGroupRelease_isSome w.engine
      (w.wrappers[i]).js_context_group_ref__ hlive
    simp only [World.step, ha, Option.some_bind, JSContextGroup.destruct, he2, Option.map_some']
    exact ⟨_, rfl⟩

/-- The invariant holds at the start of the program. -/
theorem init_invariant : World.init.counts_match ∧ World.init.unused_fresh :=
  ⟨fun _ => rfl, fun _ _ => rfl⟩

/-- A sequence of operations that succeeds keeps the invariant. -/
theorem run_preserves (ops : List Op) (w w1 : World) (hc : w.counts_match)
    (hf : w.unused_fresh) (h : w.run ops = some w1) : w1.counts_match ∧ w1.unused_fresh := by
  induction ops generalizing w with
  | nil =>
    simp only [World.run, Option.some.injEq] at h
    subst h
    exact ⟨hc, hf⟩
  | cons op ops ih =>
    simp only [World.run, Option.bind_eq_some] at h
    obtain ⟨w2, hstep, hrun⟩ := h
    obtain ⟨hc2, hf2⟩ := step_preserves w w2 op hc hf hstep
    exact ih w2 hc2 hf2 hrun

end Lifetimes

section Wrappers

/-- The reference counts of global contexts after a retain. -/
theorem JSGlobalContextRetain_context_refs (e : Engine) (ctx x : Nat) :
    (JSGlobalContextRetain e ctx).context_refs x =
      e.context_refs x + if x = ctx then 1 else 0 := by
  unfold JSGlobalContextRetain
  simp only [Function.update_apply]
  split_ifs with h
  · rw [h]
  · rfl

/-- A release of a global context succeeds when a reference is held. -/
theorem JSGlobalContextRelease_isSome (e : Engine) (ctx : Nat)
    (h : 1 ≤ e.context_refs ctx) : ∃ e1, JSGlobalContextRelease e ctx = some e1 := by
  unfold JSGlobalContextRelease
  rw [if_neg (by omega)]
  exact ⟨_, rfl⟩

/-- The reference counts of global contexts before and after a successful release. -/
theorem JSGlobalContextRelease_context_refs (e e1 : Engine) (ctx x : Nat)
    (h : JSGlobalContextRelease e ctx = some e1) :
    e1.context_refs x + (if x = ctx then 1 else 0) = e.context_refs x := by
  unfold JSGlobalContextRelease at h
  split_ifs at h with h0
  cases h
  simp only [Function.update_apply]
  split_ifs with hx
  · subst hx; omega
  · rfl

/-- A release of a global context changes only the reference counts of global contexts. -/
theorem JSGlobalContextRelease_frame (e e1 : Engine) (ctx : Nat)
    (h : JSGlobalContextRelease e ctx = some e1) :
    e1.next_group = e.next_group ∧ e1.group_refs = e.group_refs ∧
      e1.JSContextGetGlobalContext = e.JSContextGetGlobalContext := by
  unfold JSGlobalContextRelease at h
  split_ifs at h with h0
  cases h
  exact ⟨rfl, rfl, rfl⟩

/-- C6: copy-constructing a `JSContextGroup` from a live object gives an object that holds
the same handle and compares equal to the original, raises the reference count of that handle
by exactly one, and leaves the original, every other live object and the reference count of
every other handle as they were. -/
theorem copy_construct_shares_handle_retains_once (w : World) (i : Nat)
    (original : JSContextGroup) (h : w.wrappers[i]? = some original) :
    ∃ copy e1,
      JSContextGroup.copy_construct w.engine original = (copy, e1) ∧
      w.step (.copy_construct i) = some { engine := e1, wrappers := w.wrappers ++ [copy] } ∧
      copy.js_context_group_ref__ = original.js_context_group_ref__ ∧
      JSContextGroup.operator_eq copy original = true ∧
      (w.wrappers ++ [copy])[i]? = some original ∧
      e1.group_refs original.js_context_group_ref__ =
        w.engine.group_refs original.js_context_group_ref__ + 1 ∧
      (∀ g, g ≠ original.js_context_group_ref__ → e1.group_refs g = w.engine.group_refs g) ∧
      e1.context_refs = w.engine.context_refs := by
  have hi : i < w.wrappers.length := (List.getElem?_eq_some.mp h).1
  refine ⟨_, _, rfl, ?_, rfl, ?_, ?_, ?_, ?_, rfl⟩
  · simp only [World.step, h, Option.map_some']
    rfl
  · simp [JSContextGroup.operator_eq]
  · rw [List.getElem?_append_left hi, h]
  · rw [JSContextGroupRetain_group_refs, if_pos rfl]
  · intro g hg
    rw [JSContextGroupRetain_group_refs, if_neg hg, Nat.add_zero]

/-- Witness for C6: copying the one live object of `example_world`. -/
theorem copy_construct_shares_handle_retains_once_witness :
    example_world.wrappers[0]? = some { js_context_group_ref__ := 1 } ∧
    ∃ copy e1,
      JSContextGroup.copy_construct example_world.engine { js_context_group_ref__ := 1 } =
        (copy, e1) ∧
      example_world.step (.copy_construct 0) =
        some { engine := e1, wrappers := example_world.wrappers ++ [copy] } ∧
      copy.js_context_group_ref__ = 1 ∧
      JSContextGroup.operator_eq copy { js_context_group_ref__ := 1 } = true ∧
      (example_world.wrappers ++ [copy])[0]? = some { js_context_group_ref__ := 1 } ∧
      e1.group_refs 1 = example_world.engine.group_refs 1 + 1 ∧
      (∀ g, g ≠ 1 → e1.group_refs g = example_world.engine.group_refs g) ∧
      e1.context_refs = example_world.engine.context_refs :=
  ⟨rfl, copy_construct_shares_handle_retains_once example_world 0
    { js_context_group_ref__ := 1 } rfl⟩

/-- C7, the claim fails: move-constructing from a `JSContextGroup` that holds the handle `1`
leaves the source holding `1`, not `nullptr`, so that the source compares equal to the new
object, and raises the reference count of `1` from 1 to 2. Likewise move-constructing from a
`JSContext` leaves the source with its context handle `5` and raises that handle's count. -/
theorem move_construct_source_not_null :
    (JSContextGroup.move_construct example_engine example_group).2.1 ≠
      { js_context_group_ref__ := 0 } ∧
    JSContextGroup.operator_eq (JSContextGroup.move_construct example_engine example_group).2.1
      (JSContextGroup.move_construct example_engine example_group).1 = true ∧
    example_engine.group_refs 1 = 1 ∧
    (JSContextGroup.move_construct example_engine example_group).2.2.group_refs 1 = 2 ∧
    (JSContext.move_construct example_engine example_context).2.1 = example_context ∧
    example_context.js_context_ref__ ≠ 0 ∧
    example_engine.context_refs 5 = 1 ∧
    (JSContext.move_construct example_engine example_context).2.2.context_refs 5 = 2 := by
  decide

/-- C7 as amended: the move constructor of `JSContextGroup` and of `JSContext` does what the
copy constructor does. The new object holds the handles of the source, the source is left
unchanged, still holding its handles, and the reference count of each handle involved is
raised by exactly one, every other count being unchanged. -/
theorem move_construct_copies_and_retains (e : Engine) (g : JSContextGroup) (c : JSContext) :
    (JSContextGroup.move_construct e g).1 = g ∧
    (JSContextGroup.move_construct e g).2.1 = g ∧
    ((JSContextGroup.move_construct e g).1, (JSContextGroup.move_construct e g).2.2) =
      JSContextGroup.copy_construct e g ∧
    (JSContextGroup.move_construct e g).2.2.group_refs g.js_context_group_ref__ =
      e.group_refs g.js_context_group_ref__ + 1 ∧
    (∀ h, h ≠ g.js_context_group_ref__ →
      (JSContextGroup.move_construct e g).2.2.group_refs h = e.group_refs h) ∧
    (JSContext.move_construct e c).1 = c ∧
    (JSContext.move_construct e c).2.1 = c ∧
    ((JSContext.move_construct e c).1, (JSContext.move_construct e c).2.2) =
      JSContext.copy_construct e c ∧
    (JSContext.move_construct e c).2.2.group_refs c.js_context_group__.js_context_group_ref__ =
      e.group_refs c.js_context_group__.js_context_group_ref__ + 1 ∧
    (JSContext.move_construct e c).2.2.context_refs (JSContext.operator_JSGlobalContextRef e c) =
      e.context_refs (JSContext.operator_JSGlobalContextRef e c) + 1 ∧
    (∀ h, h ≠ c.js_context_group__.js_context_group_ref__ →
      (JSContext.move_construct e c).2.2.group_refs h = e.group_refs h) ∧
    (∀ x, x ≠ JSContext.operator_JSGlobalContextRef e c →
      (JSContext.move_construct e c).2.2.context_refs x = e.context_refs x) := by
  refine ⟨rfl, rfl, rfl, ?_, ?_, rfl, rfl, rfl, ?_, ?_, ?_, ?_⟩
  · simp only [JSContextGroup.move_construct]
    rw [JSContextGroupRetain_group_refs, if_pos rfl]
  · intro h hh
    simp only [JSContextGroup.move_construct]
    rw [JSContextGroupRetain_group_refs, if_neg hh, Nat.add_zero]
  · simp only [JSContext.move_construct, JSContextGroup.copy_construct, JSGlobalContextRetain]
    rw [JSContextGroupRetain_group_refs, if_pos rfl]
  · simp only [JSContext.move_construct, JSContextGroup.copy_construct]
    rw [JSGlobalContextRetain_context_refs]
    simp [JSContext.operator_JSGlobalContextRef, JSContextGroupRetain]
  · intro h hh
    simp only [JSContext.move_construct, JSContextGroup.copy_construct, JSGlobalContextRetain]
    rw [JSContextGroupRetain_group_refs, if_neg hh, Nat.add_zero]
  · intro x hx
    simp only [JSContext.move_construct, JSContextGroup.copy_construct]
    rw [JSGlobalContextRetain_context_refs]
    simp only [JSContext.operator_JSGlobalContextRef, JSContextGroupRetain] at hx ⊢
    rw [if_neg hx, Nat.add_zero]

/-- Witness for C7 as amended: the move constructors at `example_group` and
`example_context`; the handle `2` and the global context `6` are not involved. -/
theorem move_construct_copies_and_retains_witness :
    (JSContextGroup.move_construct example_engine example_group).2.1 = example_group ∧
    (JSContextGroup.move_construct example_engine example_group).2.2.group_refs 2 =
      example_engine.group_refs 2 ∧
    (JSContext.move_construct example_engine example_context).2.1 = example_context ∧
    (JSContext.move_construct example_engine example_context).2.2.context_refs 6 =
      example_engine.context_refs 6 :=
  have h := move_construct_copies_and_retains example_engine example_group example_context
  ⟨h.2.1, h.2.2.2.2.1 2 (by decide), h.2.2.2.2.2.2.1, h.2.2.2.2.2.2.2.2.2.2.2 6 (by decide)⟩

/-- C8: for a live `JSContext` `c`, that is one whose context handle and group handle each
have a reference count of at least one, copy-constructing `c2` from `c` retains each of the
two handles once, destroying `c` afterwards succeeds and releases each once, and `c2` is then
still valid: its two handles have a reference count of at least one, the counts being those
from before the copy. -/
theorem copy_valid_after_original_destroyed (e : Engine) (c : JSContext)
    (hctx : 1 ≤ e.context_refs (JSContext.operator_JSGlobalContextRef e c))
    (hgrp : 1 ≤ e.group_refs c.js_context_group__.js_context_group_ref__) :
    (JSContext.copy_construct e c).2.context_refs (JSContext.operator_JSGlobalContextRef e c) =
      e.context_refs (JSContext.operator_JSGlobalContextRef e c) + 1 ∧
    (JSContext.copy_construct e c).2.group_refs c.js_context_group__.js_context_group_ref__ =
      e.group_refs c.js_context_group__.js_context_group_ref__ + 1 ∧
    ∃ e2, JSContext.destruct (JSContext.copy_construct e c).2 c = some e2 ∧
      1 ≤ e2.context_refs
        (JSContext.operator_JSGlobalContextRef e2 (JSContext.copy_construct e c).1) ∧
      1 ≤ e2.group_refs
        (JSContext.copy_construct e c).1.js_context_group__.js_context_group_ref__ ∧
      (∀ x, e2.context_refs x = e.context_refs x) ∧
      (∀ g, e2.group_refs g = e.group_refs g) := by
  have hc1 : ∀ x, (JSContext.copy_construct e c).2.context_refs x =
      e.context_refs x + if x = e.JSContextGetGlobalContext c.js_context_ref__ then 1 else 0 := by
    intro x
    simp only [JSContext.copy_construct, JSContextGroup.copy_construct]
    rw [JSGlobalContextRetain_context_refs]
    rfl
  have hg1 : ∀ g, (JSContext.copy_construct e c).2.group_refs g =
      e.group_refs g + if g = c.js_context_group__.js_context_group_ref__ then 1 else 0 := by
    intro g
    simp only [JSContext.copy_construct, JSContextGroup.copy_construct, JSGlobalContextRetain]
    rw [JSContextGroupRetain_group_refs]
  have hgc : (JSContext.copy_construct e c).2.JSContextGetGlobalContext =
      e.JSContextGetGlobalContext := rfl
  have hself : (JSContext.copy_construct e c).1 = c := rfl
  refine ⟨?_, ?_, ?_⟩
  · rw [hc1, JSContext.operator_JSGlobalContextRef, if_pos rfl]
  · rw [hg1, if_pos rfl]
  · simp only [JSContext.operator_JSGlobalContextRef] at hctx
    obtain ⟨e2, h2⟩ := JSGlobalContextRelease_isSome (JSContext.copy_construct e c).2
      (e.JSContextGetGlobalContext c.js_context_ref__) (by rw [hc1, if_pos rfl]; omega)
    have h2c := fun x => JSGlobalContextRelease_context_refs _ _ _ x h2
    obtain ⟨h2n, h2g, h2f⟩ := JSGlobalContextRelease_frame _ _ _ h2
    obtain ⟨e3, h3⟩ := JSContextGroupRelease_isSome e2
      c.js_context_group__.js_context_group_ref__ (by rw [h2g, hg1, if_pos rfl]; omega)
    have h3g := fun g => JSContextGroupRelease_group_refs _ _ _ g h3
    obtain ⟨h3n, h3c, h3f⟩ := JSContextGroupRelease_frame _ _ _ h3
    have hctx_eq : ∀ x, e3.context_refs x = e.context_refs x := by
      intro x
      have h5 := h2c x
      have h6 := hc1 x
      rw [h3c]
      split_ifs at h5 h6 <;> omega
    have hgrp_eq : ∀ g, e3.group_refs g = e.group_refs g := by
      intro g
      have h5 := h3g g
      have h6 := hg1 g
      rw [h2g] at h5
      split_ifs at h5 h6 <;> omega
    refine ⟨e3, ?_, ?_, ?_, hctx_eq, hgrp_eq⟩
    · simp only [JSContext.destruct, JSContext.operator_JSGlobalContextRef,
        JSContextGroup.destruct, hgc, h2, Option.some_bind, h3]
    · rw [hself, JSContext.operator_JSGlobalContextRef, h3f, h2f, hgc, hctx_eq]
      exact hctx
    · rw [hself, hgrp_eq]
      exact hgrp

/-- Witness for C8: the context `example_context`, whose two handles each have a reference
count of one in `example_engine`. -/
theorem copy_valid_after_original_destroyed_witness :
    1 ≤ example_engine.context_refs
      (JSContext.operator_JSGlobalContextRef example_engine example_context) ∧
    1 ≤ example_engine.group_refs example_context.js_context_group__.js_context_group_ref__ ∧
    ∃ e2, JSContext.destruct (JSContext.copy_construct example_engine example_context).2
        example_context = some e2 ∧
      1 ≤ e2.context_refs (JSContext.operator_JSGlobalContextRef e2
        (JSContext.copy_construct example_engine example_context).1) ∧
      1 ≤ e2.group_refs
        (JSContext.copy_construct example_engine example_context).1.js_context_group__.js_context_group_ref__ :=
  ⟨by decide, by decide,
    match (copy_valid_after_original_destroyed example_engine example_context
      (by decide) (by decide)).2.2 with
    | ⟨e2, h1, h2, h3, _⟩ => ⟨e2, h1, h2, h3⟩⟩

/-- C9: in every state reached from the start of the program by a sequence of default
constructions, copy constructions, move constructions, assignments, swaps and destructions
of `JSContextGroup` objects, the engine's reference count of each group handle is the number
of live objects that hold it. Hence the handle of every live object is retained, and every
further operation on live objects succeeds: no handle is released more often than it was
retained. -/
theorem refcount_equals_live_holders (ops : List Op) (w : World)
    (h : World.init.run ops = some w) :
    (∀ group, w.engine.group_refs group = w.holders group) ∧
    (∀ x ∈ w.wrappers, 1 ≤ w.engine.group_refs x.js_context_group_ref__) ∧
    (∀ op, w.valid op = true → ∃ w1, w.step op = some w1) := by
  obtain ⟨hc, -⟩ := run_preserves ops World.init w init_invariant.1 init_invariant.2 h
  refine ⟨hc, ?_, fun op hv => step_isSome w op hc hv⟩
  intro x hx
  obtain ⟨n, hn⟩ := List.mem_iff_getElem?.mp hx
  exact one_le_group_refs_of_live w hc n x hn

/-- Witness for C9: a program that uses every operation. It ends with three live objects, all
holding the handle `2`, and with no reference left to the handle `1`. -/
theorem refcount_equals_live_holders_witness :
    World.init.run [.default_construct, .copy_construct 0, .default_construct, .assign 0 2,
      .move_construct 1, .move_assign 3 0, .swap 0 1, .destruct 0] = some example_run ∧
    example_run.wrappers.length = 3 ∧
    example_run.engine.group_refs 1 = 0 ∧ example_run.engine.group_refs 2 = 3 ∧
    (∀ group, example_run.engine.group_refs group = example_run.holders group) ∧
    (∀ x ∈ example_run.wrappers, 1 ≤ example_run.engine.group_refs x.js_context_group_ref__) ∧
    (∀ op, example_run.valid op = true → ∃ w1, example_run.step op = some w1) :=
  ⟨rfl, by decide, by decide, by decide,
    refcount_equals_live_holders [.default_construct, .copy_construct 0, .default_construct,
      .assign 0 2, .move_construct 1, .move_assign 3 0, .swap 0 1, .destruct 0] example_run rfl⟩

/-- C10: the assignment `a = b` of `JSContextGroup` objects succeeds for a live `a`, makes
`a` hold the handle of `b`, so that `a == b`, and leaves `b` and every other object unchanged.
When the two handles differ, the reference count of the handle of `b` goes up by exactly one
and that of the previous handle of `a` goes down by exactly one; when they are the same
handle, no reference count changes. The count of any other handle never changes. -/
theorem assign_takes_handle_and_rebalances (w : World) (i j : Nat) (a b : JSContextGroup)
    (ha : w.wrappers[i]? = some a) (hb : w.wrappers[j]? = some b)
    (hlive : 1 ≤ w.engine.group_refs a.js_context_group_ref__) :
    ∃ a1 e1,
      JSContextGroup.assign w.engine a b = some (a1, e1) ∧
      w.step (.assign i j) = some { engine := e1, wrappers := w.wrappers.set i a1 } ∧
      a1.js_context_group_ref__ = b.js_context_group_ref__ ∧
      JSContextGroup.operator_eq a1 b = true ∧
      (w.wrappers.set i a1)[j]? = some b ∧
      (∀ k, k ≠ i → (w.wrappers.set i a1)[k]? = w.wrappers[k]?) ∧
      (a.js_context_group_ref__ ≠ b.js_context_group_ref__ →
        e1.group_refs b.js_context_group_ref__ =
          w.engine.group_refs b.js_context_group_ref__ + 1 ∧
        e1.group_refs a.js_context_group_ref__ + 1 =
          w.engine.group_refs a.js_context_group_ref__) ∧
      (a.js_context_group_ref__ = b.js_context_group_ref__ →
        ∀ g, e1.group_refs g = w.engine.group_refs g) ∧
      (∀ g, g ≠ a.js_context_group_ref__ → g ≠ b.js_context_group_ref__ →
        e1.group_refs g = w.engine.group_refs g) := by
  have hret := fun g => JSContextGroupRetain_group_refs w.engine b.js_context_group_ref__ g
  obtain ⟨e1, he1⟩ := JSContextGroupRelease_isSome
    (JSContextGroupRetain w.engine b.js_context_group_ref__) a.js_context_group_ref__
    (by have := hret a.js_context_group_ref__; omega)
  have hrel := fun g => JSContextGroupRelease_group_refs _ _ _ g he1
  have hassign : JSContextGroup.assign w.engine a b =
      some ({ js_context_group_ref__ := b.js_context_group_ref__ }, e1) := by
    simp only [JSContextGroup.assign, JSContextGroup.copy_construct,
      JSContextGroup.operator_assign, JSContextGroup.swap, JSContextGroup.destruct, he1,
      Option.map_some']
  have hi : i < w.wrappers.length := (List.getElem?_eq_some.mp ha).1
  refine ⟨{ js_context_group_ref__ := b.js_context_group_ref__ }, e1, hassign, ?_, rfl, ?_, ?_,
    ?_, ?_, ?_, ?_⟩
  · simp only [World.step, ha, hb, Option.some_bind, hassign, Option.map_some']
  · simp [JSContextGroup.operator_eq]
  · rw [List.getElem?_set]
    split_ifs
    · rfl
    · exact hb
  · intro k hk
    rw [List.getElem?_set_ne (Ne.symm hk)]
  · intro hne
    have h1 := hrel b.js_context_group_ref__
    have h2 := hret b.js_context_group_ref__
    have h3 := hrel a.js_context_group_ref__
    have h4 := hret a.js_context_group_ref__
    rw [if_neg (Ne.symm hne)] at h1
    rw [if_pos rfl] at h2 h3
    rw [if_neg hne] at h4
    omega
  · intro heq g
    have h1 := hrel g
    have h2 := hret g
    rw [heq] at h1
    split_ifs at h1 h2 <;> omega
  · intro g hga hgb
    have h1 := hrel g
    have h2 := hret g
    rw [if_neg hga] at h1
    rw [if_neg hgb] at h2
    omega

/-- Witness for C10: in `example_pair`, whose two live objects hold the handles `1` and `2`
with one reference each, the first object is assigned from the second. -/
theorem assign_takes_handle_and_rebalances_witness :
    example_pair.wrappers[0]? = some { js_context_group_ref__ := 1 } ∧
    example_pair.wrappers[1]? = some { js_context_group_ref__ := 2 } ∧
    1 ≤ example_pair.engine.group_refs 1 ∧
    ∃ a1 e1,
      JSContextGroup.assign example_pair.engine { js_context_group_ref__ := 1 }
        { js_context_group_ref__ := 2 } = some (a1, e1) ∧
      a1.js_context_group_ref__ = 2 ∧
      e1.group_refs 2 = example_pair.engine.group_refs 2 + 1 ∧
      e1.group_refs 1 + 1 = example_pair.engine.group_refs 1 :=
  ⟨rfl, rfl, by decide,
    match assign_takes_handle_and_rebalances example_pair 0 1 { js_context_group_ref__ := 1 }
      { js_context_group_ref__ := 2 } rfl rfl (by decide) with
    | ⟨a1, e1, h1, _, h3, _, _, _, h7, _, _⟩ =>
      ⟨a1, e1, h1, h3, (h7 (by decide)).1, (h7 (by decide)).2⟩⟩

end Wrappers

section Identity

/-- C11: `==` on `JSContextGroup` objects is identity of the group handle and `==` on
`JSContext` objects is identity of the context handle. So each is reflexive, symmetric and
transitive, a copy-constructed object compares equal to its original, and `!=` is the
negation of `==`. -/
theorem operator_eq_is_handle_identity (e : Engine) (g1 g2 g3 : JSContextGroup)
    (c1 c2 c3 : JSContext) :
    (JSContextGroup.operator_eq g1 g2 = true ↔
      g1.js_context_group_ref__ = g2.js_context_group_ref__) ∧
    JSContextGroup.operator_eq g1 g1 = true ∧
    JSContextGroup.operator_eq g1 g2 = JSContextGroup.operator_eq g2 g1 ∧
    (JSContextGroup.operator_eq g1 g2 = true → JSContextGroup.operator_eq g2 g3 = true →
      JSContextGroup.operator_eq g1 g3 = true) ∧
    JSContextGroup.operator_eq (JSContextGroup.copy_construct e g1).1 g1 = true ∧
    JSContextGroup.operator_ne g1 g2 = !(JSContextGroup.operator_eq g1 g2) ∧
    (JSContext.operator_eq c1 c2 = true ↔ c1.js_context_ref__ = c2.js_context_ref__) ∧
    JSContext.operator_eq c1 c1 = true ∧
    JSContext.operator_eq c1 c2 = JSContext.operator_eq c2 c1 ∧
    (JSContext.operator_eq c1 c2 = true → JSContext.operator_eq c2 c3 = true →
      JSContext.operator_eq c1 c3 = true) ∧
    JSContext.operator_eq (JSContext.copy_construct e c1).1 c1 = true ∧
    JSContext.operator_ne c1 c2 = !(JSContext.operator_eq c1 c2) := by
  simp only [JSContextGroup.operator_eq, JSContextGroup.operator_ne, JSContext.operator_eq,
    JSContext.operator_ne, JSContextGroup.copy_construct, JSContext.copy_construct,
    beq_iff_eq, beq_self_eq_true, true_and, and_true]
  refine ⟨Bool.beq_comm, ?_, Bool.beq_comm, ?_⟩
  · intro h12 h23
    rw [h12, h23]
  · intro h12 h23
    rw [h12, h23]

/-- Witness for C11: three `JSContextGroup` objects holding the handle `1` and three
`JSContext` objects holding the context handle `5`, in different groups. -/
theorem operator_eq_is_handle_identity_witness :
    JSContextGroup.operator_eq example_group { js_context_group_ref__ := 1 } = true ∧
    JSContextGroup.operator_eq example_group
      (JSContextGroup.copy_construct example_engine example_group).1 = true ∧
    JSContext.operator_eq example_context
      { js_context_group__ := { js_context_group_ref__ := 2 }, js_context_ref__ := 5 } = true :=
  have h := operator_eq_is_handle_identity example_engine example_group
    { js_context_group_ref__ := 1 } (JSContextGroup.copy_construct example_engine example_group).1
    example_context
    { js_context_group__ := { js_context_group_ref__ := 2 }, js_context_ref__ := 5 }
    example_context
  ⟨h.1.mpr rfl, h.2.2.2.1 (h.1.mpr rfl) (by decide), h.2.2.2.2.2.2.1.mpr rfl⟩

/-- C12: the `JSContext` that `CreateContext` returns, with or without a class for the global
object, belongs to the group it was created by: the group that its `get_context_group()`
returns compares equal to that group. And `CreateContext()` is `CreateContext` applied to
a default-constructed `JSClass`. -/
theorem CreateContext_belongs_to_group (e : Engine) (g : JSContextGroup)
    (global_object_class : JSClass) :
    JSContextGroup.operator_eq
      (JSContext.get_context_group (JSContextGroup.CreateContext_JSClass e g global_object_class).2
        (JSContextGroup.CreateContext_JSClass e g global_object_class).1).1 g = true ∧
    JSContextGroup.operator_eq
      (JSContext.get_context_group (JSContextGroup.CreateContext e g).2
        (JSContextGroup.CreateContext e g).1).1 g = true ∧
    JSContextGroup.CreateContext e g = JSContextGroup.CreateContext_JSClass e g {} := by
  refine ⟨?_, ?_, rfl⟩ <;>
    simp [JSContextGroup.operator_eq, JSContext.get_context_group,
      JSContextGroup.CreateContext, JSContextGroup.CreateContext_JSClass, JSContext.construct,
      JSContextGroup.copy_construct]

end Identity

section Scripts

variable {JSString σ : Type}

/-- What the shared steps of `JSEvaluateScript` return, by the exception handle. -/
theorem evaluate_outcome_result (api : ScriptEngine JSString σ) (ctx : Nat)
    (call : Call JSString) (returned : Nat × Nat × σ) :
    (JSContext.evaluate_outcome api ctx call returned).result =
      if returned.2.1 ≠ 0 then
        .error (.invalid_argument (api.to_std_string returned.2.2 ctx returned.2.1))
      else .ok { js_context_ref_ := ctx, js_value_ref_ := returned.1 } := by
  unfold JSContext.evaluate_outcome
  simp only
  split_ifs <;> rfl

/-- What `JSCheckScriptSyntax` returns, by the exception handle. -/
theorem JSCheckScriptSyntax_result (api : ScriptEngine JSString σ) (s : σ) (ctx : Nat)
    (script source_url : JSString) (starting_line_number : Int) :
    (JSContext.JSCheckScriptSyntax api s ctx script source_url starting_line_number).result =
      if (api.JSCheckScriptSyntax s ctx script (JSContext.source_url_ref api source_url)
          starting_line_number).2.1 ≠ 0 then
        .error (.invalid_argument (api.to_std_string
          (api.JSCheckScriptSyntax s ctx script (JSContext.source_url_ref api source_url)
            starting_line_number).2.2 ctx
          (api.JSCheckScriptSyntax s ctx script (JSContext.source_url_ref api source_url)
            starting_line_number).2.1))
      else .ok (api.JSCheckScriptSyntax s ctx script (JSContext.source_url_ref api source_url)
          starting_line_number).1 := by
  unfold JSContext.JSCheckScriptSyntax
  simp only
  split_ifs <;> rfl

/-- The state of the engine after the shared steps of `JSEvaluateScript`. -/
theorem evaluate_outcome_engine (api : ScriptEngine JSString σ) (ctx : Nat)
    (call : Call JSString) (returned : Nat × Nat × σ) :
    (JSContext.evaluate_outcome api ctx call returned).engine = returned.2.2 := by
  unfold JSContext.evaluate_outcome
  simp only
  split_ifs <;> rfl

/-- The state of the engine after `JSCheckScriptSyntax`. -/
theorem JSCheckScriptSyntax_engine (api : ScriptEngine JSString σ) (s : σ) (ctx : Nat)
    (script source_url : JSString) (starting_line_number : Int) :
    (JSContext.JSCheckScriptSyntax api s ctx script source_url starting_line_number).engine =
      (api.JSCheckScriptSyntax s ctx script (JSContext.source_url_ref api source_url)
        starting_line_number).2.2 := by
  unfold JSContext.JSCheckScriptSyntax
  simp only
  split_ifs <;> rfl

/-- C13: for every script, source URL, `this` object and starting line number, each overload
of `JSEvaluateScript` throws exactly when the engine stored an exception for the evaluation,
and when the engine stored none it returns the `JSValue` that wraps the handle the engine
returned. -/
theorem JSEvaluateScript_fails_iff_engine_exception (api : ScriptEngine JSString σ) (s : σ)
    (ctx : Nat) (script source_url : JSString) (this_object : Nat)
    (starting_line_number : Int) :
    ((∃ err, (JSContext.JSEvaluateScript api s ctx script source_url
        starting_line_number).result = .error err) ↔
      (api.JSEvaluateScript s ctx script 0 (JSContext.source_url_ref api source_url)
        starting_line_number).2.1 ≠ 0) ∧
    ((api.JSEvaluateScript s ctx script 0 (JSContext.source_url_ref api source_url)
        starting_line_number).2.1 = 0 →
      (JSContext.JSEvaluateScript api s ctx script source_url starting_line_number).result =
        .ok { js_context_ref_ := ctx,
              js_value_ref_ := (api.JSEvaluateScript s ctx script 0
                (JSContext.source_url_ref api source_url) starting_line_number).1 }) ∧
    ((∃ err, (JSContext.JSEvaluateScript_this api s ctx script this_object source_url
        starting_line_number).result = .error err) ↔
      (api.JSEvaluateScript s ctx script this_object (JSContext.source_url_ref api source_url)
        starting_line_number).2.1 ≠ 0) ∧
    ((api.JSEvaluateScript s ctx script this_object (JSContext.source_url_ref api source_url)
        starting_line_number).2.1 = 0 →
      (JSContext.JSEvaluateScript_this api s ctx script this_object source_url
        starting_line_number).result =
        .ok { js_context_ref_ := ctx,
              js_value_ref_ := (api.JSEvaluateScript s ctx script this_object
                (JSContext.source_url_ref api source_url) starting_line_number).1 }) := by
  simp only [JSContext.JSEvaluateScript, JSContext.JSEvaluateScript_this,
    evaluate_outcome_result]
  refine ⟨?_, ?_, ?_, ?_⟩
  · by_cases h : (api.JSEvaluateScript s ctx script 0 (JSContext.source_url_ref api source_url)
        starting_line_number).2.1 = 0
    · simp [h]
    · simp [h]
  · intro h
    simp [h]
  · by_cases h : (api.JSEvaluateScript s ctx script this_object
        (JSContext.source_url_ref api source_url) starting_line_number).2.1 = 0
    · simp [h]
    · simp [h]
  · intro h
    simp [h]

/-- Witness for C13: in the example engine the script `1+1` evaluates without an exception
to the value handle `40`, with and without a `this` object. -/
theorem JSEvaluateScript_fails_iff_engine_exception_witness :
    (example_script_engine.JSEvaluateScript 1 5 "1+1" 0
      (JSContext.source_url_ref example_script_engine "a.js") 1).2.1 = 0 ∧
    (JSContext.JSEvaluateScript example_script_engine 1 5 "1+1" "a.js" 1).result =
      .ok { js_context_ref_ := 5, js_value_ref_ := 40 } ∧
    (JSContext.JSEvaluateScript_this example_script_engine 1 5 "1+1" 7 "a.js" 1).result =
      .ok { js_context_ref_ := 5, js_value_ref_ := 40 } :=
  have h := JSEvaluateScript_fails_iff_engine_exception example_script_engine 1 5 "1+1" "a.js"
    7 1
  ⟨by decide, h.2.1 (by decide), h.2.2.2 (by decide)⟩

/-- C14, the code at a failing input: for the script `throw new Error('x')`, for which the
engine stores an exception, `JSEvaluateScript` throws `std::invalid_argument`, and so not
`std::runtime_error`, whatever the message. -/
theorem JSEvaluateScript_throws_invalid_argument :
    (example_script_engine.JSEvaluateScript 1 5 "throw new Error('x')" 0
      (JSContext.source_url_ref example_script_engine "") 1).2.1 ≠ 0 ∧
    (JSContext.JSEvaluateScript example_script_engine 1 5 "throw new Error('x')" "" 1).result =
      .error (.invalid_argument "Error: x") ∧
    ∀ message,
      (JSContext.JSEvaluateScript example_script_engine 1 5 "throw new Error('x')" "" 1).result ≠
        .error (.runtime_error message) := by
  have h : (JSContext.JSEvaluateScript example_script_engine 1 5 "throw new Error('x')" ""
      1).result = .error (.invalid_argument "Error: x") := rfl
  refine ⟨by decide, h, ?_⟩
  intro message hm
  rw [h] at hm
  cases hm

/-- C15: when the engine stores an exception handle for the evaluation, the message of the
exception that `JSEvaluateScript` throws, in either overload, is the string conversion of the
`JSValue` that wraps that handle; and the same holds for `JSCheckScriptSyntax`. -/
theorem thrown_message_is_exception_string (api : ScriptEngine JSString σ) (s : σ)
    (ctx : Nat) (script source_url : JSString) (this_object : Nat)
    (starting_line_number : Int) :
    ((api.JSEvaluateScript s ctx script 0 (JSContext.source_url_ref api source_url)
        starting_line_number).2.1 ≠ 0 →
      ∃ err, (JSContext.JSEvaluateScript api s ctx script source_url
          starting_line_number).result = .error err ∧
        err.message = api.to_std_string
          (api.JSEvaluateScript s ctx script 0 (JSContext.source_url_ref api source_url)
            starting_line_number).2.2 ctx
          (api.JSEvaluateScript s ctx script 0 (JSContext.source_url_ref api source_url)
            starting_line_number).2.1) ∧
    ((api.JSEvaluateScript s ctx script this_object (JSContext.source_url_ref api source_url)
        starting_line_number).2.1 ≠ 0 →
      ∃ err, (JSContext.JSEvaluateScript_this api s ctx script this_object source_url
          starting_line_number).result = .error err ∧
        err.message = api.to_std_string
          (api.JSEvaluateScript s ctx script this_object
            (JSContext.source_url_ref api source_url) starting_line_number).2.2 ctx
          (api.JSEvaluateScript s ctx script this_object
            (JSContext.source_url_ref api source_url) starting_line_number).2.1) ∧
    ((api.JSCheckScriptSyntax s ctx script (JSContext.source_url_ref api source_url)
        starting_line_number).2.1 ≠ 0 →
      ∃ err, (JSContext.JSCheckScriptSyntax api s ctx script source_url
          starting_line_number).result = .error err ∧
        err.message = api.to_std_string
          (api.JSCheckScriptSyntax s ctx script (JSContext.source_url_ref api source_url)
            starting_line_number).2.2 ctx
          (api.JSCheckScriptSyntax s ctx script (JSContext.source_url_ref api source_url)
            starting_line_number).2.1) := by
  refine ⟨?_, ?_, ?_⟩
  · intro h
    refine ⟨.invalid_argument _, ?_, rfl⟩
    simp only [JSContext.JSEvaluateScript, evaluate_outcome_result]
    rw [if_pos h]
  · intro h
    refine ⟨.invalid_argument _, ?_, rfl⟩
    simp only [JSContext.JSEvaluateScript_this, evaluate_outcome_result]
    rw [if_pos h]
  · intro h
    refine ⟨.invalid_argument _, ?_, rfl⟩
    rw [JSCheckScriptSyntax_result, if_pos h]

/-- Witness for C15: in the example engine the script `throw new Error('x')` throws the
handle `9`, whose string conversion is `Error: x`, and the syntax check of `1+` stores the
handle `8`. -/
theorem thrown_message_is_exception_string_witness :
    (∃ err, (JSContext.JSEvaluateScript example_script_engine 1 5 "throw new Error('x')" ""
        1).result = .error err ∧ err.message = "Error: x") ∧
    (∃ err, (JSContext.JSCheckScriptSyntax example_script_engine 1 5 "1+" "" 1).result =
        .error err ∧ err.message = "SyntaxError: Unexpected end of script") :=
  have h := thrown_message_is_exception_string example_script_engine 1 5
    "throw new Error('x')" "" 0 1
  have h2 := thrown_message_is_exception_string example_script_engine 1 5 "1+" "" 0 1
  ⟨h.1 (by decide), h2.2.2 (by decide)⟩

/-- The example engine takes a starting line number below 1 as 1. -/
theorem example_script_engine_clamps (s ctx : Nat) (script : String) (this_object : Nat)
    (source_url_ref : Option String) (starting_line_number : Int)
    (h : starting_line_number < 1) :
    example_script_engine.JSEvaluateScript s ctx script this_object source_url_ref
        starting_line_number =
      example_script_engine.JSEvaluateScript s ctx script this_object source_url_ref 1 ∧
    example_script_engine.JSCheckScriptSyntax s ctx script source_url_ref
        starting_line_number =
      example_script_engine.JSCheckScriptSyntax s ctx script source_url_ref 1 := by
  have hmax : max 1 starting_line_number = 1 := max_eq_left (le_of_lt h)
  simp only [example_script_engine, hmax, max_self]
  exact ⟨trivial, trivial⟩

/-- C17: when the engine's syntax check stores no exception, `JSCheckScriptSyntax` returns
the boolean that the engine's syntax check returned. -/
theorem JSCheckScriptSyntax_returns_engine_verdict (api : ScriptEngine JSString σ) (s : σ)
    (ctx : Nat) (script source_url : JSString) (starting_line_number : Int)
    (h : (api.JSCheckScriptSyntax s ctx script (JSContext.source_url_ref api source_url)
      starting_line_number).2.1 = 0) :
    (JSContext.JSCheckScriptSyntax api s ctx script source_url starting_line_number).result =
      .ok (api.JSCheckScriptSyntax s ctx script (JSContext.source_url_ref api source_url)
        starting_line_number).1 := by
  rw [JSCheckScriptSyntax_result, if_neg (by simp [h])]

/-- Witness for C17: the syntax check of `1+1` in the example engine. -/
theorem JSCheckScriptSyntax_returns_engine_verdict_witness :
    (example_script_engine.JSCheckScriptSyntax 1 5 "1+1"
      (JSContext.source_url_ref example_script_engine "a.js") 1).2.1 = 0 ∧
    (JSContext.JSCheckScriptSyntax example_script_engine 1 5 "1+1" "a.js" 1).result =
      .ok (example_script_engine.JSCheckScriptSyntax 1 5 "1+1"
        (JSContext.source_url_ref example_script_engine "a.js") 1).1 :=
  ⟨by decide, JSCheckScriptSyntax_returns_engine_verdict example_script_engine 1 5 "1+1" "a.js"
    1 (by decide)⟩

/-- C18, the claim fails: called with the starting line number `0`, `JSEvaluateScript` and
`JSCheckScriptSyntax` hand the line number `0` to the engine, not `1`. -/
theorem starting_line_number_zero_handed_to_engine :
    (JSContext.JSEvaluateScript example_script_engine 1 5 "1+1" "" 0).calls.head? =
      some (.JSEvaluateScript 5 "1+1" 0 none 0) ∧
    (JSContext.JSEvaluateScript example_script_engine 1 5 "1+1" "" 0).calls.head? ≠
      some (.JSEvaluateScript 5 "1+1" 0 none 1) ∧
    (JSContext.JSCheckScriptSyntax example_script_engine 1 5 "1+1" "" 0).calls.head? =
      some (.JSCheckScriptSyntax 5 "1+1" none 0) ∧
    (JSContext.JSCheckScriptSyntax example_script_engine 1 5 "1+1" "" 0).calls.head? ≠
      some (.JSCheckScriptSyntax 5 "1+1" none 1) := by
  decide

/-- C18 as amended: `JSEvaluateScript`, in either overload, and `JSCheckScriptSyntax` hand
the starting line number to the engine as they received it, also when it is less than 1.
The clamping is the engine's: when the engine takes every starting line number below 1
as 1, a call with a starting line number below 1 returns or throws what the same call with
the starting line number 1 does, and leaves the engine in the same state. -/
theorem starting_line_number_forwarded_engine_clamps (api : ScriptEngine JSString σ)
    (hevaluate : ∀ s ctx script this_object source_url_ref (n : Int), n < 1 →
      api.JSEvaluateScript s ctx script this_object source_url_ref n =
        api.JSEvaluateScript s ctx script this_object source_url_ref 1)
    (hcheck : ∀ s ctx script source_url_ref (n : Int), n < 1 →
      api.JSCheckScriptSyntax s ctx script source_url_ref n =
        api.JSCheckScriptSyntax s ctx script source_url_ref 1)
    (s : σ) (ctx : Nat) (script source_url : JSString) (this_object : Nat)
    (starting_line_number : Int) (hlt : starting_line_number < 1) :
    (JSContext.JSEvaluateScript api s ctx script source_url starting_line_number).calls.head? =
      some (.JSEvaluateScript ctx script 0 (JSContext.source_url_ref api source_url)
        starting_line_number) ∧
    (JSContext.JSEvaluateScript_this api s ctx script this_object source_url
        starting_line_number).calls.head? =
      some (.JSEvaluateScript ctx script this_object (JSContext.source_url_ref api source_url)
        starting_line_number) ∧
    (JSContext.JSCheckScriptSyntax api s ctx script source_url starting_line_number).calls.head? =
      some (.JSCheckScriptSyntax ctx script (JSContext.source_url_ref api source_url)
        starting_line_number) ∧
    (JSContext.JSEvaluateScript api s ctx script source_url starting_line_number).result =
      (JSContext.JSEvaluateScript api s ctx script source_url 1).result ∧
    (JSContext.JSEvaluateScript api s ctx script source_url starting_line_number).engine =
      (JSContext.JSEvaluateScript api s ctx script source_url 1).engine ∧
    (JSContext.JSEvaluateScript_this api s ctx script this_object source_url
        starting_line_number).result =
      (JSContext.JSEvaluateScript_this api s ctx script this_object source_url 1).result ∧
    (JSContext.JSEvaluateScript_this api s ctx script this_object source_url
        starting_line_number).engine =
      (JSContext.JSEvaluateScript_this api s ctx script this_object source_url 1).engine ∧
    (JSContext.JSCheckScriptSyntax api s ctx script source_url starting_line_number).result =
      (JSContext.JSCheckScriptSyntax api s ctx script source_url 1).result ∧
    (JSContext.JSCheckScriptSyntax api s ctx script source_url starting_line_number).engine =
      (JSContext.JSCheckScriptSyntax api s ctx script source_url 1).engine := by
  have he0 := hevaluate s ctx script 0 (JSContext.source_url_ref api source_url)
    starting_line_number hlt
  have het := hevaluate s ctx script this_object (JSContext.source_url_ref api source_url)
    starting_line_number hlt
  have hc := hcheck s ctx script (JSContext.source_url_ref api source_url)
    starting_line_number hlt
  refine ⟨?_, ?_, ?_, ?_, ?_, ?_, ?_, ?_, ?_⟩
  · simp only [JSContext.JSEvaluateScript, JSContext.evaluate_outcome]
    split_ifs <;> rfl
  · simp only [JSContext.JSEvaluateScript_this, JSContext.evaluate_outcome]
    split_ifs <;> rfl
  · simp only [JSContext.JSCheckScriptSyntax]
    split_ifs <;> rfl
  · simp only [JSContext.JSEvaluateScript, evaluate_outcome_result, he0]
  · simp only [JSContext.JSEvaluateScript, evaluate_outcome_engine, he0]
  · simp only [JSContext.JSEvaluateScript_this, evaluate_outcome_result, het]
  · simp only [JSContext.JSEvaluateScript_this, evaluate_outcome_engine, het]
  · simp only [JSCheckScriptSyntax_result, hc]
  · simp only [JSCheckScriptSyntax_engine, hc]

/-- Witness for C18 as amended: the example engine, which takes a starting line number
below 1 as 1, called with the starting line number `-3`. -/
theorem starting_line_number_forwarded_engine_clamps_witness :
    ((-3 : Int) < 1) ∧
    (JSContext.JSEvaluateScript example_script_engine 1 5 "1+1" "" (-3)).calls.head? =
      some (.JSEvaluateScript 5 "1+1" 0 (JSContext.source_url_ref example_script_engine "")
        (-3)) ∧
    (JSContext.JSEvaluateScript example_script_engine 1 5 "1+1" "" (-3)).result =
      (JSContext.JSEvaluateScript example_script_engine 1 5 "1+1" "" 1).result ∧
    (JSContext.JSCheckScriptSyntax example_script_engine 1 5 "1+1" "" (-3)).engine =
      (JSContext.JSCheckScriptSyntax example_script_engine 1 5 "1+1" "" 1).engine :=
  have h := starting_line_number_forwarded_engine_clamps example_script_engine
    (fun s ctx script this_object url n hn =>
      (example_script_engine_clamps s ctx script this_object url n hn).1)
    (fun s ctx script url n hn => (example_script_engine_clamps s ctx script 0 url n hn).2)
    1 5 "1+1" "" 0 (-3) (by decide)
  ⟨by decide, h.1, h.2.2.2.1, h.2.2.2.2.2.2.2.2⟩

end Scripts

section Classes

/-- C19: registering a class under a name that is already registered throws
`std::runtime_error` and leaves the registry as it was; registering under a name that is not
yet registered succeeds and adds exactly the entry for that name. -/
theorem register_class_names_unique {JSString : Type} [DecidableEq JSString]
    (js_class_map_ : List (JSString × JSClass)) (name : JSString) (js_class : JSClass) :
    (name ∈ JSClass.registered_names js_class_map_ →
      (∃ message, (JSClass.register_class js_class_map_ name js_class).1 =
        .error (.runtime_error message)) ∧
      (JSClass.register_class js_class_map_ name js_class).2 = js_class_map_) ∧
    (name ∉ JSClass.registered_names js_class_map_ →
      (JSClass.register_class js_class_map_ name js_class).1 = .ok () ∧
      (JSClass.register_class js_class_map_ name js_class).2 =
        (name, js_class) :: js_class_map_ ∧
      JSClass.registered_names (JSClass.register_class js_class_map_ name js_class).2 =
        name :: JSClass.registered_names js_class_map_) := by
  unfold JSClass.registered_names
  constructor
  · intro h
    have ht : JSClass.ThrowRuntimeErrorIfJSClassAlreadyExists js_class_map_ name =
        .error (.runtime_error "A JSClass with this name already exists.") := by
      unfold JSClass.ThrowRuntimeErrorIfJSClassAlreadyExists
      rw [if_pos h]
    unfold JSClass.register_class
    rw [ht]
    exact ⟨⟨_, rfl⟩, rfl⟩
  · intro h
    have ht : JSClass.ThrowRuntimeErrorIfJSClassAlreadyExists js_class_map_ name = .ok () := by
      unfold JSClass.ThrowRuntimeErrorIfJSClassAlreadyExists
      rw [if_neg h]
    unfold JSClass.register_class
    rw [ht]
    exact ⟨rfl, rfl, rfl⟩

/-- Witness for C19: with a class registered under the name `A`, a second registration under
`A` fails and changes nothing, and a registration under `B` succeeds. -/
theorem register_class_names_unique_witness :
    ("A" ∈ JSClass.registered_names [("A", ({} : JSClass))]) ∧
    (∃ message, (JSClass.register_class [("A", {})] "A" { js_class_ref__ := 3 }).1 =
      .error (.runtime_error message)) ∧
    (JSClass.register_class [("A", {})] "A" { js_class_ref__ := 3 }).2 = [("A", {})] ∧
    ("B" ∉ JSClass.registered_names [("A", ({} : JSClass))]) ∧
    (JSClass.register_class [("A", {})] "B" { js_class_ref__ := 3 }).1 = .ok () ∧
    JSClass.registered_names (JSClass.register_class [("A", {})] "B" { js_class_ref__ := 3 }).2 =
      ["B", "A"] :=
  have ha := (register_class_names_unique [("A", ({} : JSClass))] "A"
    { js_class_ref__ := 3 }).1 (by decide)
  have hb := (register_class_names_unique [("A", ({} : JSClass))] "B"
    { js_class_ref__ := 3 }).2 (by decide)
  ⟨by decide, ha.1, ha.2, by decide, hb.1, hb.2.2⟩

end Classes

section Creation

/-- C20: in every state reached from the start of the program, default-constructing a
`JSContextGroup` gives an object whose handle is fresh: no live object holds it and no
reference to it was held before. Once the constructor has returned, exactly one reference
to it is held, and the reference count of every other handle is as before. -/
theorem default_construct_fresh_handle (ops : List Op) (w : World)
    (h : World.init.run ops = some w) :
    ∃ g e1,
      JSContextGroup.default_construct w.engine = (g, e1) ∧
      w.step .default_construct = some { engine := e1, wrappers := w.wrappers ++ [g] } ∧
      (∀ x ∈ w.wrappers, x.js_context_group_ref__ ≠ g.js_context_group_ref__) ∧
      w.engine.group_refs g.js_context_group_ref__ = 0 ∧
      e1.group_refs g.js_context_group_ref__ = 1 ∧
      (∀ other, other ≠ g.js_context_group_ref__ →
        e1.group_refs other = w.engine.group_refs other) := by
  obtain ⟨hc, hf⟩ := run_preserves ops World.init w init_invariant.1 init_invariant.2 h
  refine ⟨_, _, rfl, rfl, ?_, ?_, ?_, ?_⟩
  · intro x hx
    obtain ⟨n, hn⟩ := List.mem_iff_getElem?.mp hx
    have hlt := lt_next_group_of_live w hc hf n x hn
    simp only [JSContextGroup.default_construct, JSContextGroupCreate]
    omega
  · exact hf _ (Nat.le_refl _)
  · simp [JSContextGroup.default_construct, JSContextGroupCreate]
  · intro other hother
    simp only [JSContextGroup.default_construct, JSContextGroupCreate] at hother ⊢
    rw [Function.update_apply, if_neg hother]

/-- Witness for C20: default construction in `example_run`, where three live objects hold the
handle `2`; the new object holds the handle `3`. -/
theorem default_construct_fresh_handle_witness :
    World.init.run [.default_construct, .copy_construct 0, .default_construct, .assign 0 2,
      .move_construct 1, .move_assign 3 0, .swap 0 1, .destruct 0] = some example_run ∧
    (JSContextGroup.default_construct example_run.engine).1 = { js_context_group_ref__ := 3 } ∧
    ∃ g e1,
      JSContextGroup.default_construct example_run.engine = (g, e1) ∧
      (∀ x ∈ example_run.wrappers, x.js_context_group_ref__ ≠ g.js_context_group_ref__) ∧
      example_run.engine.group_refs g.js_context_group_ref__ = 0 ∧
      e1.group_refs g.js_context_group_ref__ = 1 :=
  ⟨rfl, by decide,
    match default_construct_fresh_handle [.default_construct, .copy_construct 0,
      .default_construct, .assign 0 2, .move_construct 1, .move_assign 3 0, .swap 0 1,
      .destruct 0] example_run rfl with
    | ⟨g, e1, h1, _, h3, h4, h5, _⟩ => ⟨g, e1, h1, h3, h4, h5⟩⟩

end Creation

section Ordering

variable {JSString Callback : Type}

/-- The order on attribute sets of `example_externals` is a strict weak ordering: it is
irreflexive and transitive, and its incomparability is transitive. -/
theorem example_attributes_less_strict_weak (x y z : Finset JSPropertyAttribute) :
    example_externals.attributes_less x x = false ∧
    (example_externals.attributes_less x y = true →
      example_externals.attributes_less y z = true →
      example_externals.attributes_less x z = true) ∧
    (example_externals.attributes_less x y = false →
      example_externals.attributes_less y x = false →
      example_externals.attributes_less y z = false →
      example_externals.attributes_less z y = false →
      example_externals.attributes_less x z = false ∧
        example_externals.attributes_less z x = false) := by
  simp only [example_externals, decide_eq_true_eq, decide_eq_false_iff_not]
  refine ⟨?_, ?_, ?_⟩
  · omega
  · intro h1 h2
    omega
  · intro h1 h2 h3 h4
    constructor <;> omega

/-- The derived operators are defined from `operator<`: `a > b` is `b < a`, `a <= b` is the
negation of `b < a`, and `a >= b` is the negation of `a < b`. -/
theorem derived_operators_from_operator_lt (ext : Externals JSString)
    (a b : JSNativeObjectFunctionPropertyCallback JSString Callback) :
    operator_gt ext a b = operator_lt ext b a ∧
    operator_le ext a b = !(operator_lt ext b a) ∧
    operator_ge ext a b = !(operator_lt ext a b) :=
  ⟨rfl, rfl, rfl⟩

/-- C21, the code at a failing input: for the descriptors `("b", ∅)` and `("a", {ReadOnly})`,
both returned by the constructor, `operator<` holds in both directions, so it is not
asymmetric; and since it does not hold between `("b", ∅)` and itself, it is not transitive
either. The derived `operator>` then holds in both directions too. -/
theorem operator_lt_not_strict_weak_ordering :
    construct example_externals "b" (some 0) ∅ = .ok example_descriptor_b ∧
    construct example_externals "a" (some 0) {.ReadOnly} = .ok example_descriptor_a ∧
    operator_lt example_externals example_descriptor_b example_descriptor_a = true ∧
    operator_lt example_externals example_descriptor_a example_descriptor_b = true ∧
    operator_lt example_externals example_descriptor_b example_descriptor_b = false ∧
    operator_gt example_externals example_descriptor_b example_descriptor_a = true ∧
    operator_gt example_externals example_descriptor_a example_descriptor_b = true := by
  have hba : ¬ ("b" : String) < "a" := by rw [String.lt_iff_toList_lt]; decide
  have hab : ("a" : String) < "b" := by rw [String.lt_iff_toList_lt]; decide
  have hbb : ¬ ("b" : String) < "b" := lt_irrefl _
  have hless : example_externals.attributes_less ∅ {.ReadOnly} = true := by decide
  have hirr : example_externals.attributes_less ∅ ∅ = false := by decide
  have h1 : operator_lt example_externals example_descriptor_b example_descriptor_a = true := by
    simp only [operator_lt, example_descriptor_a, example_descriptor_b, hba, if_false, hless]
  have h2 : operator_lt example_externals example_descriptor_a example_descriptor_b = true := by
    simp only [operator_lt, example_descriptor_a, example_descriptor_b, hab, if_true]
  refine ⟨rfl, rfl, h1, h2, ?_, h2, h1⟩
  simp only [operator_lt, example_descriptor_b, hbb, if_false, hirr]

end Ordering

section Copies

variable {JSString Callback : Type}

/-- Every descriptor that a program can obtain stores the plain-text conversion of its
`JSString` name and the conversion of its attribute set to attribute bits. -/
theorem reachable_name_and_bits (ext : Externals JSString)
    (d : JSNativeObjectFunctionPropertyCallback JSString Callback)
    (h : JSNativeObjectFunctionPropertyCallback.Reachable ext d) :
    name_consistent ext d ∧
      d.js_property_attributes_ = ext.ToJSPropertyAttribute d.attributes_ := by
  induction h with
  | construct function_name call_as_function_callback attributes d hd =>
    have hd2 := construct_eq_ok ext function_name call_as_function_callback attributes d hd
    subst hd2
    exact ⟨rfl, rfl⟩
  | copy_construct d _ ih => exact ⟨ih.1, rfl⟩
  | move_construct d _ ih => exact ⟨ih.1, rfl⟩
  | assign a b _ _ _ ihb => exact ⟨ihb.1, rfl⟩
  | swap_first a b _ _ _ ihb => exact ⟨ihb.1, ihb.2⟩
  | swap_second a b _ _ iha _ => exact ⟨iha.1, iha.2⟩

/-- The copy constructor and the move constructor keep the stored hash equal to the hash
computed from the name and the attribute set. -/
theorem copy_construct_hash_value (ext : Externals JSString)
    (d : JSNativeObjectFunctionPropertyCallback JSString Callback) :
    (JSNativeObjectFunctionPropertyCallback.copy_construct ext d).hash_value_ =
      ext.hash_val (JSNativeObjectFunctionPropertyCallback.copy_construct ext d).function_name_
        (ext.ToJSPropertyAttribute
          (JSNativeObjectFunctionPropertyCallback.copy_construct ext d).attributes_) ∧
    (JSNativeObjectFunctionPropertyCallback.move_construct ext d).1 =
      JSNativeObjectFunctionPropertyCallback.copy_construct ext d ∧
    (JSNativeObjectFunctionPropertyCallback.move_construct ext d).2 = d :=
  ⟨rfl, rfl, rfl⟩

/-- C22, the code at a failing input: after `swap(a, b)` for the descriptors
`a = ("a", {ReadOnly})` and `b = ("b", ∅)`, both returned by the constructor, the first
object has the name and the attribute set of `b` but still the stored hash `33` of `a`, while
the hash computed from its name and attribute set is `31`: it is not the old `b`. The same
holds for `a` after the assignment `a = b`. -/
theorem swap_does_not_exchange_hash_value :
    JSNativeObjectFunctionPropertyCallback.Reachable example_externals example_descriptor_a ∧
    JSNativeObjectFunctionPropertyCallback.Reachable example_externals example_descriptor_b ∧
    (JSNativeObjectFunctionPropertyCallback.swap example_descriptor_a
      example_descriptor_b).1.get_function_name = "b" ∧
    (JSNativeObjectFunctionPropertyCallback.swap example_descriptor_a
      example_descriptor_b).1.get_attributes = ∅ ∧
    (JSNativeObjectFunctionPropertyCallback.swap example_descriptor_a
      example_descriptor_b).1.get_hash_value = 33 ∧
    example_externals.hash_val "b" (example_externals.ToJSPropertyAttribute ∅) = 31 ∧
    example_descriptor_b.get_hash_value = 31 ∧
    (JSNativeObjectFunctionPropertyCallback.swap example_descriptor_a
      example_descriptor_b).1 ≠ example_descriptor_b ∧
    (JSNativeObjectFunctionPropertyCallback.assign example_externals example_descriptor_a
      example_descriptor_b).get_function_name = "b" ∧
    (JSNativeObjectFunctionPropertyCallback.assign example_externals example_descriptor_a
      example_descriptor_b).get_attributes = ∅ ∧
    (JSNativeObjectFunctionPropertyCallback.assign example_externals example_descriptor_a
      example_descriptor_b).get_hash_value = 33 := by
  refine ⟨.construct "a" (some 0) {JSPropertyAttribute.ReadOnly} _ rfl, .construct "b" (some 0) ∅ _ rfl,
    rfl, rfl, rfl, by decide, rfl, ?_, rfl, rfl, rfl⟩
  intro h
  have h2 := congrArg JSNativeObjectFunctionPropertyCallback.hash_value_ h
  exact absurd h2 (by decide)

/-- C24: provided no attribute set is less than itself, equality and ordering are
consistent on the descriptors that a program can obtain by construction, copy construction,
move construction, assignment and `swap`: if `a == b` then neither `a < b` nor `b < a`.
The names that `==` and `<` compare are different members, but each of these descriptors
stores as its plain-text name the conversion of its `JSString` name. -/
theorem operator_eq_excludes_operator_lt [DecidableEq JSString] (ext : Externals JSString)
    (hirr : ∀ x, ext.attributes_less x x = false)
    (a b : JSNativeObjectFunctionPropertyCallback JSString Callback)
    (ha : JSNativeObjectFunctionPropertyCallback.Reachable ext a)
    (hb : JSNativeObjectFunctionPropertyCallback.Reachable ext b)
    (heq : operator_eq a b = true) :
    operator_lt ext a b = false ∧ operator_lt ext b a = false := by
  obtain ⟨hname, hattr⟩ := operator_eq_name_attributes a b heq
  have hna := (reachable_name_and_bits ext a ha).1
  have hnb := (reachable_name_and_bits ext b hb).1
  unfold name_consistent at hna hnb
  have hstd : a.function_name_for_js_static_function_ =
      b.function_name_for_js_static_function_ := by
    rw [hna, hnb, hname]
  have hab : ¬ a.function_name_for_js_static_function_ <
      b.function_name_for_js_static_function_ := by
    rw [hstd]; exact lt_irrefl _
  have hba : ¬ b.function_name_for_js_static_function_ <
      a.function_name_for_js_static_function_ := by
    rw [hstd]; exact lt_irrefl _
  constructor
  · simp only [operator_lt, hab, if_false, hattr, hirr]
  · simp only [operator_lt, hba, if_false, hattr, hirr]

/-- Witness for C24: a descriptor named `f` with the callback `7`, and the first object
after `swap` of a descriptor named `a` with the copy of a descriptor named `f` with the
callback `8`. The two compare equal and neither is less than the other. -/
theorem operator_eq_excludes_operator_lt_witness :
    (∀ x, example_externals.attributes_less x x = false) ∧
    operator_eq (example_descriptor_f 7)
      (JSNativeObjectFunctionPropertyCallback.swap example_descriptor_a
        (JSNativeObjectFunctionPropertyCallback.copy_construct example_externals
          (example_descriptor_f 8))).1 = true ∧
    operator_lt example_externals (example_descriptor_f 7)
      (JSNativeObjectFunctionPropertyCallback.swap example_descriptor_a
        (JSNativeObjectFunctionPropertyCallback.copy_construct example_externals
          (example_descriptor_f 8))).1 = false ∧
    operator_lt example_externals
      (JSNativeObjectFunctionPropertyCallback.swap example_descriptor_a
        (JSNativeObjectFunctionPropertyCallback.copy_construct example_externals
          (example_descriptor_f 8))).1 (example_descriptor_f 7) = false :=
  have hirr : ∀ x, example_externals.attributes_less x x = false :=
    fun x => (example_attributes_less_strict_weak x x x).1
  have heq : operator_eq (example_descriptor_f 7)
      (JSNativeObjectFunctionPropertyCallback.swap example_descriptor_a
        (JSNativeObjectFunctionPropertyCallback.copy_construct example_externals
          (example_descriptor_f 8))).1 = true := by decide
  have h := operator_eq_excludes_operator_lt example_externals hirr (example_descriptor_f 7)
    (JSNativeObjectFunctionPropertyCallback.swap example_descriptor_a
      (JSNativeObjectFunctionPropertyCallback.copy_construct example_externals
        (example_descriptor_f 8))).1
    (.construct "f" (some 7) {JSPropertyAttribute.ReadOnly} _ rfl)
    (.swap_first _ _ (.construct "a" (some 0) {JSPropertyAttribute.ReadOnly} _ rfl)
      (.copy_construct _ (.construct "f" (some 8) {JSPropertyAttribute.ReadOnly} _ rfl)))
    heq
  ⟨hirr, heq, h.1, h.2⟩

end Copies

section Protection

variable {JSString σ : Type}

/-- The calls that the shared steps of `JSEvaluateScript` make, by the exception handle. -/
theorem evaluate_outcome_calls (api : ScriptEngine JSString σ) (ctx : Nat)
    (call : Call JSString) (returned : Nat × Nat × σ) :
    (JSContext.evaluate_outcome api ctx call returned).calls =
      if returned.2.1 ≠ 0 then [call, .JSValue_construct ctx returned.2.1]
      else [call, .JSValue_construct ctx returned.1, .JSValueUnprotect ctx returned.1] := by
  unfold JSContext.evaluate_outcome
  simp only
  split_ifs <;> rfl

/-- C23: when the engine stores no exception, each overload of `JSEvaluateScript` makes,
after the call to the engine, exactly two calls: it wraps the result handle in a `JSValue`
and then unprotects that handle, once. When the engine stores an exception, the only call
after the call to the engine wraps the exception handle: the result handle is neither
wrapped nor unprotected. In both cases the `JSContext` object, its context handle and its
group, is after the call what it was before. -/
theorem JSEvaluateScript_wraps_then_unprotects_once (api : ScriptEngine JSString σ) (s : σ)
    (e : Engine) (self : JSContext) (script source_url : JSString) (this_object : Nat)
    (starting_line_number : Int) :
    ((api.JSEvaluateScript s (JSContext.operator_JSGlobalContextRef e self) script 0
        (JSContext.source_url_ref api source_url) starting_line_number).2.1 = 0 →
      (JSContext.JSEvaluateScript_on api s e self script source_url
        starting_line_number).1.calls =
        [.JSEvaluateScript (JSContext.operator_JSGlobalContextRef e self) script 0
           (JSContext.source_url_ref api source_url) starting_line_number,
         .JSValue_construct (JSContext.operator_JSGlobalContextRef e self)
           (api.JSEvaluateScript s (JSContext.operator_JSGlobalContextRef e self) script 0
             (JSContext.source_url_ref api source_url) starting_line_number).1,
         .JSValueUnprotect (JSContext.operator_JSGlobalContextRef e self)
           (api.JSEvaluateScript s (JSContext.operator_JSGlobalContextRef e self) script 0
             (JSContext.source_url_ref api source_url) starting_line_number).1]) ∧
    ((api.JSEvaluateScript s (JSContext.operator_JSGlobalContextRef e self) script 0
        (JSContext.source_url_ref api source_url) starting_line_number).2.1 ≠ 0 →
      (JSContext.JSEvaluateScript_on api s e self script source_url
        starting_line_number).1.calls =
        [.JSEvaluateScript (JSContext.operator_JSGlobalContextRef e self) script 0
           (JSContext.source_url_ref api source_url) starting_line_number,
         .JSValue_construct (JSContext.operator_JSGlobalContextRef e self)
           (api.JSEvaluateScript s (JSContext.operator_JSGlobalContextRef e self) script 0
             (JSContext.source_url_ref api source_url) starting_line_number).2.1]) ∧
    (JSContext.JSEvaluateScript_on api s e self script source_url starting_line_number).2 =
      self ∧
    ((api.JSEvaluateScript s (JSContext.operator_JSGlobalContextRef e self) script this_object
        (JSContext.source_url_ref api source_url) starting_line_number).2.1 = 0 →
      (JSContext.JSEvaluateScript_this_on api s e self script this_object source_url
        starting_line_number).1.calls =
        [.JSEvaluateScript (JSContext.operator_JSGlobalContextRef e self) script this_object
           (JSContext.source_url_ref api source_url) starting_line_number,
         .JSValue_construct (JSContext.operator_JSGlobalContextRef e self)
           (api.JSEvaluateScript s (JSContext.operator_JSGlobalContextRef e self) script
             this_object (JSContext.source_url_ref api source_url) starting_line_number).1,
         .JSValueUnprotect (JSContext.operator_JSGlobalContextRef e self)
           (api.JSEvaluateScript s (JSContext.operator_JSGlobalContextRef e self) script
             this_object (JSContext.source_url_ref api source_url) starting_line_number).1]) ∧
    ((api.JSEvaluateScript s (JSContext.operator_JSGlobalContextRef e self) script this_object
        (JSContext.source_url_ref api source_url) starting_line_number).2.1 ≠ 0 →
      (JSContext.JSEvaluateScript_this_on api s e self script this_object source_url
        starting_line_number).1.calls =
        [.JSEvaluateScript (JSContext.operator_JSGlobalContextRef e self) script this_object
           (JSContext.source_url_ref api source_url) starting_line_number,
         .JSValue_construct (JSContext.operator_JSGlobalContextRef e self)
           (api.JSEvaluateScript s (JSContext.operator_JSGlobalContextRef e self) script
             this_object (JSContext.source_url_ref api source_url)
             starting_line_number).2.1]) ∧
    (JSContext.JSEvaluateScript_this_on api s e self script this_object source_url
      starting_line_number).2 = self := by
  refine ⟨?_, ?_, rfl, ?_, ?_, rfl⟩
  · intro h
    simp only [JSContext.JSEvaluateScript_on, JSContext.JSEvaluateScript,
      evaluate_outcome_calls]
    rw [if_neg (by simp [h])]
  · intro h
    simp only [JSContext.JSEvaluateScript_on, JSContext.JSEvaluateScript,
      evaluate_outcome_calls]
    rw [if_pos h]
  · intro h
    simp only [JSContext.JSEvaluateScript_this_on, JSContext.JSEvaluateScript_this,
      evaluate_outcome_calls]
    rw [if_neg (by simp [h])]
  · intro h
    simp only [JSContext.JSEvaluateScript_this_on, JSContext.JSEvaluateScript_this,
      evaluate_outcome_calls]
    rw [if_pos h]

/-- Witness for C23: on `example_context` in the example engine, the script `1+1` evaluates
to the handle `40`, which is wrapped and then unprotected once, and the script
`throw new Error('x')` throws the handle `9`, the only handle wrapped. -/
theorem JSEvaluateScript_wraps_then_unprotects_once_witness :
    (JSContext.JSEvaluateScript_on example_script_engine 1 example_engine example_context
      "1+1" "" 1).1.calls =
      [.JSEvaluateScript 5 "1+1" 0 none 1, .JSValue_construct 5 40, .JSValueUnprotect 5 40] ∧
    (JSContext.JSEvaluateScript_on example_script_engine 1 example_engine example_context
      "throw new Error('x')" "" 1).1.calls =
      [.JSEvaluateScript 5 "throw new Error('x')" 0 none 1, .JSValue_construct 5 9] ∧
    (JSContext.JSEvaluateScript_on example_script_engine 1 example_engine example_context
      "throw new Error('x')" "" 1).2 = example_context :=
  have h1 := JSEvaluateScript_wraps_then_unprotects_once example_script_engine 1
    example_engine example_context "1+1" "" 0 1
  have h2 := JSEvaluateScript_wraps_then_unprotects_once example_script_engine 1
    example_engine example_context "throw new Error('x')" "" 0 1
  ⟨h1.1 (by decide), h2.2.1 (by decide), h2.2.2.1⟩

end Protection

end JavaScriptCoreCPP
